import Mathlib

/-!
Verification of the portal-automation engine of the `mn` repository.

The embedding below translates the TypeScript sources
(`server/services/browser-automation.ts`, `server/services/att-flow.ts`,
`server/services/status-checker.ts`, `shared/schema.ts`,
`client/src/pages/requests.tsx`) into Lean.  Pure string manipulation is
modelled on `List Char`; JavaScript runtime semantics (the `substring`
clamping rule, `includes`, `trim`, `toLowerCase`, the leftmost regex match)
are embedded as executable functions.  The effectful browser flows are
modelled as deterministic functions of an oracle environment
(`BrowserEnv`) that decides the outcome of every page operation from the
history of operations performed so far; each flow returns the list of
performed operations (the trace) together with its result record.
-/

namespace ATTUnlock

/-! ### JavaScript string primitives -/

/-- Whitespace as removed by `String.prototype.trim` (ASCII subset used by the
    sources: space, tab, carriage return, newline). -/
def isWS (c : Char) : Bool := c = ' ' || c = '\t' || c = '\r' || c = '\n'

/-- Models `String.prototype.trim`, on character lists. -/
def jsTrim (l : List Char) : List Char :=
  ((l.dropWhile isWS).reverse.dropWhile isWS).reverse

/-- Models `String.prototype.toLowerCase` on the character range the sources compare
    (ASCII letters; other characters are unchanged, matching `Char.toLower`). -/
def lowerL (l : List Char) : List Char := l.map Char.toLower

/-- Tests whether `needle` occurs at the start of `hay`
    (`String.prototype.startsWith`). -/
def startsWithL : List Char → List Char → Bool
  | _, [] => true
  | [], _ :: _ => false
  | a :: as, b :: bs => a = b && startsWithL as bs

/-- Models `String.prototype.includes`: `needle` occurs somewhere in `hay`. -/
def hasSub (hay needle : List Char) : Bool :=
  match hay with
  | [] => startsWithL [] needle
  | _ :: rest => startsWithL hay needle || hasSub rest needle

/-- Models `a.includes(b)` on strings. -/
def jsIncludes (s sub : String) : Bool := hasSub s.toList sub.toList

/-- Models `String.prototype.split('\n')` on character lists. -/
def splitLines : List Char → List (List Char)
  | [] => [[]]
  | c :: rest =>
    let r := splitLines rest
    if c = '\n' then [] :: r
    else
      match r with
      | [] => [[c]]
      | l :: ls => (c :: l) :: ls

/-- Models `Array.prototype.join(sep)` for a one-character separator. -/
def joinChar (c : Char) : List (List Char) → List Char
  | [] => []
  | [l] => l
  | l :: l2 :: rest => l ++ c :: joinChar c (l2 :: rest)

/-- Models `String.prototype.substring(a, b)`: negative arguments are clamped to 0,
    arguments beyond the length are clamped to the length, and the two
    arguments are swapped when given in decreasing order (ECMA-262). -/
def jsSubstring (s : String) (a b : Int) : String :=
  let len : Int := s.length
  let a2 := min (max a 0) len
  let b2 := min (max b 0) len
  let lo := (min a2 b2).toNat
  let hi := (max a2 b2).toNat
  ⟨(s.toList.take hi).drop lo⟩

/-- Models `String.prototype.substring(a)` (single argument: up to the end). -/
def jsSubstringFrom (s : String) (a : Int) : String := jsSubstring s a s.length

/-! ### Data model (`shared/schema.ts`, result interfaces) -/

/-- Models `RequestStatus` constants from `shared/schema.ts`. -/
def RequestStatus.APPROVED : String := "approved"

def RequestStatus.DENIED : String := "denied"

def RequestStatus.PENDING : String := "pending"

def RequestStatus.UNKNOWN : String := "unknown"

/-- The fields of `InsertUnlockRequest` that the automation flows read
    (`imei`, optional `phoneNumber`, `firstName`, `lastName`, `email`). -/
structure InsertUnlockRequest where
  imei : String
  phoneNumber : Option String
  firstName : String
  lastName : String
  email : String
deriving Repr, DecidableEq

/-- Models `SubmissionResult` from `att-flow.ts`.  The `deadlineISO` string is
    modelled by the millisecond timestamp it renders. -/
structure SubmissionResult where
  success : Bool
  requestId : Option String
  deadlineISO : Option Nat
  captchaDetected : Bool
  errorMessage : Option String
deriving Repr, DecidableEq

/-- Models `StatusResult` from `status-checker.ts`. -/
structure StatusResult where
  success : Bool
  status : String
  details : Option String
  errorMessage : Option String
deriving Repr, DecidableEq

/-- The configuration fields the flows read (`server/config.ts`).  The URLs
    are fixed literals there; the timeout and debug flag come from the
    environment. -/
structure Config where
  ATT_UNLOCK_URL : String := "https://www.att.com/deviceunlock/unlockstep1"
  ATT_STATUS_URL : String := "https://www.att.com/deviceunlock/status"
  BROWSER_TIMEOUT : Nat := 30000
  DEBUG_ENABLED : Bool := false

/-- JavaScript truthiness of an optional string (`!!x`): present and
    non-empty. -/
def strTruthy : Option String → Bool
  | some s => s ≠ ""
  | none => false

/-! ### `maskImei` (`client/src/pages/requests.tsx`) -/

/-- Models `maskImei` from `requests.tsx`:
    `imei.substring(0, 6) + "****" + imei.substring(-4)`.
    (The Telegram bot builds the same two `substring` expressions with a
    `"..."` separator.) -/
def maskImei (imei : String) : String :=
  jsSubstring imei 0 6 ++ "****" ++ jsSubstringFrom imei (-4)

/-! ### Element resolver (`browser-automation.ts`, `waitForSelectorWithFallbacks`) -/

/-- The `for` loop of `waitForSelectorWithFallbacks`: try each selector with
    the fixed per-candidate predicate; an exception from `waitForSelector`
    (candidate absent within its slice) moves to the next candidate. -/
def tryEach (p : String → Bool) : List String → Option String
  | [] => none
  | s :: rest => if p s then some s else tryEach p rest

/-- Models `waitForSelectorWithFallbacks(page, selectors, timeout = 10000)`:
    each candidate is waited for with budget `timeout / selectors.length`
    (exact division, as in JavaScript); the first present candidate is
    returned, `null` (here `none`) when none is.  `appears s t` models
    `page.waitForSelector(s, t)` succeeding within `t` milliseconds. -/
def waitForSelectorWithFallbacks (appears : String → ℚ → Bool)
    (selectors : List String) (timeout : ℚ := 10000) : Option String :=
  tryEach (fun s => appears s (timeout / selectors.length)) selectors

/-! ### CAPTCHA detector (`browser-automation.ts`, `detectCaptcha`) -/

def captchaSelectors : List String :=
  ["iframe[src*=\"recaptcha\"]",
   "[data-captcha]",
   ".captcha",
   "#captcha",
   "img[src*=\"captcha\"]",
   "[class*=\"captcha\"]",
   "[id*=\"captcha\"]"]

/-- Models `detectCaptcha`: true as soon as one marker selector matches an element;
    a `page.$` call that throws is treated as not-found (the `catch` branch
    continues), so `found` reports `false` for it. -/
def detectCaptcha (found : String → Bool) : Bool :=
  captchaSelectors.any found

/-! ### Text classifier (`status-checker.ts`, `extractStatusInfo` / `extractStatusDetails`) -/

def approvedPatterns : List String :=
  ["approved", "aprobada", "completed", "completada",
   "unlocked", "desbloqueado", "success", "exitoso"]

def deniedPatterns : List String :=
  ["denied", "denegada", "rejected", "rechazada",
   "declined", "declinada", "not eligible", "no elegible"]

def pendingPatterns : List String :=
  ["pending", "pendiente", "in progress", "en progreso",
   "processing", "procesando", "under review", "en revisión"]

def errorPatterns : List String :=
  ["error", "not found", "invalid", "incorrect",
   "wrong", "incorrecto", "inválido"]

/-- The entries of the `statusPatterns` object, in insertion order
    (`Object.entries` preserves it): approved, then denied, then pending. -/
def statusGroups : List (String × List String) :=
  [(RequestStatus.APPROVED, approvedPatterns),
   (RequestStatus.DENIED, deniedPatterns),
   (RequestStatus.PENDING, pendingPatterns)]

/-- Models `patterns.some(pattern => text.includes(pattern))`. -/
def matchesAny (text : List Char) (patterns : List String) : Bool :=
  patterns.any (fun p => hasSub text p.toList)

/-- The line filter of `extractStatusDetails`: the line (lowercased) contains
    one of the four fixed keywords or the status value itself. -/
def lineMatches (status : String) (line : List Char) : Bool :=
  hasSub (lowerL line) "status".toList ||
  hasSub (lowerL line) "estado".toList ||
  hasSub (lowerL line) "request".toList ||
  hasSub (lowerL line) "solicitud".toList ||
  hasSub (lowerL line) (lowerL status.toList)

/-- Models `pageText.split('\n').map(trim).filter(length > 0)`. -/
def statusLines (pageText : String) : List (List Char) :=
  ((splitLines pageText.toList).map jsTrim).filter (fun l => l ≠ [])

/-- Models `if (lines[j] && !relevantLines.includes(lines[j])) relevantLines.push(lines[j])`. -/
def pushUnique (acc : List (List Char)) (l : List Char) : List (List Char) :=
  if l ≠ [] ∧ l ∉ acc then acc ++ [l] else acc

/-- The inner context loop: push `lines[j]` for
    `j ∈ [max(0, i-1), min(lines.length, i+3))`. -/
def collectFrom (lines : List (List Char)) (i : Nat)
    (acc : List (List Char)) : List (List Char) :=
  (List.range' (i - 1) (min lines.length (i + 3) - (i - 1))).foldl
    (fun a j => pushUnique a (lines.getD j [])) acc

/-- The outer scan of `extractStatusDetails`: for each line index, when the
    line matches, collect it with its context, deduplicated, in order. -/
def relevantLinesOf (lines : List (List Char)) (status : String) :
    List (List Char) :=
  (List.range lines.length).foldl
    (fun acc i =>
      if lineMatches status (lines.getD i []) then collectFrom lines i acc
      else acc)
    []

/-- Models `extractStatusDetails(pageText, status)`:
    `relevantLines.slice(0, 5).join(' ').substring(0, 500).trim()`. -/
def extractStatusDetails (pageText : String) (status : String) : String :=
  ⟨jsTrim ((joinChar ' ' ((relevantLinesOf (statusLines pageText) status).take 5)).take 500)⟩

/-- The pure part of `extractStatusInfo`, applied to the non-null, non-empty
    body text: classify by the first status group with a matching keyword;
    otherwise throw on an error keyword; otherwise the unknown default. -/
def extractStatusInfoText (pageText : String) : Except String StatusResult :=
  match statusGroups.find? (fun g => matchesAny (lowerL pageText.toList) g.2) with
  | some g =>
    Except.ok ⟨true, g.1, some (extractStatusDetails pageText g.1), none⟩
  | none =>
    if matchesAny (lowerL pageText.toList) errorPatterns then
      Except.error "Error en la consulta de estado. Verifique que el IMEI y Request ID sean correctos."
    else
      Except.ok ⟨true, RequestStatus.UNKNOWN,
        some "No se pudo determinar el estado actual. Reintente más tarde.", none⟩

/-! ### Confirmation extraction, pure part (`att-flow.ts`, `extractConfirmationDetails`) -/

def confirmationIndicators : List String :=
  ["Thanks", "Confirmation", "Request submitted",
   "Solicitud enviada", "Gracias", "Confirmación"]

/-- Models `confirmationIndicators.some(i => pageText.toLowerCase().includes(i.toLowerCase()))`. -/
def hasConfirmationText (pageText : String) : Bool :=
  confirmationIndicators.any
    (fun ind => hasSub (lowerL pageText.toList) (lowerL ind.toList))

def isUpperAZ (c : Char) : Bool := 'A' ≤ c && c ≤ 'Z'

def isDigit09 (c : Char) : Bool := '0' ≤ c && c ≤ '9'

/-- The regex `[A-Z]{3}\d{12}` anchored at the head of `l`. -/
def confIdHere (l : List Char) : Option (List Char) :=
  let pre := l.take 3
  let digs := (l.drop 3).take 12
  if pre.length = 3 && pre.all isUpperAZ && digs.length = 12 && digs.all isDigit09
  then some (pre ++ digs) else none

/-- Models `pageText.match(/([A-Z]{3}\d{12})/)`: the leftmost match of the pattern
    (JavaScript regex matching tries start positions left to right). -/
def findConfId : List Char → Option (List Char)
  | [] => none
  | c :: rest =>
    match confIdHere (c :: rest) with
    | some m => some m
    | none => findConfId rest

/-- Models `requestIdMatch?.[1]` as an optional string. -/
def matchRequestId (pageText : String) : Option String :=
  (findConfId pageText.toList).map (fun l => ⟨l⟩)

/-! ### Browser operations as an oracle-driven trace semantics

Each page operation appends an `Event` to the trace; the oracle
(`BrowserEnv`) decides its outcome from the trace accumulated so far, so
arbitrary page behaviour (including behaviour that changes between steps)
is representable. -/

inductive Event where
  | pageCreate
  | goto (url : String)
  | screenshot (name : String)
  | captchaCheck (result : Bool)
  | resolve (selectors : List String) (timeout : ℚ)
  | click (selector : String)
  | fill (selector : String) (value : String)
  | checkBox (selector : String)
  | selectOpt (selector : String) (value : String)
  | waitTimeout (ms : Nat)
  | waitLoadState
  | queryAll (selector : String)
  | textContent
  | logWarn (msg : String)
  | pageClose (ok : Bool)
deriving Repr, DecidableEq

/-- A `<option>` element as projected by the `$$eval` in `selectMakeModel`:
    its `value` and its (nullable) `textContent`. -/
structure JsOption where
  value : String
  text : Option String
deriving Repr, DecidableEq

/-- The oracle describing how the browser and the portal pages react to each
    operation, as a function of the operation history. -/
structure BrowserEnv where
  createPageRes : Except String Unit
  gotoRes : List Event → String → Except String Unit
  appears : List Event → String → ℚ → Bool
  found : List Event → String → Bool
  clickRes : List Event → String → Except String Unit
  fillRes : List Event → String → String → Except String Unit
  checkRes : List Event → String → Except String Unit
  selectOptionRes : List Event → String → String → Except String Unit
  loadStateRes : List Event → Except String Unit
  waitTimeoutRes : List Event → Nat → Except String Unit
  optionsRes : List Event → String → Except String (List JsOption)
  formQueryRes : List Event → Except String Nat
  textContentRes : List Event → Except String (Option String)
  closeRes : List Event → Except String Unit

/-- A computation over one page: it extends the trace and either returns a
    value or throws (an `Error` whose `message` is the `String`). -/
def Eff (α : Type) := List Event → List Event × Except String α

def Eff.pure {α : Type} (a : α) : Eff α := fun tr => (tr, Except.ok a)

def Eff.fail {α : Type} (e : String) : Eff α := fun tr => (tr, Except.error e)

def Eff.bind {α β : Type} (x : Eff α) (f : α → Eff β) : Eff β := fun tr =>
  match x tr with
  | (tr2, Except.ok a) => f a tr2
  | (tr2, Except.error e) => (tr2, Except.error e)

/-! Primitive page operations. -/

def gotoE (env : BrowserEnv) (url : String) : Eff Unit :=
  fun tr => (tr ++ [Event.goto url], env.gotoRes tr url)

/-- Models `takeScreenshot` acts only with `DEBUG_ENABLED` and swallows its own
    errors, so it never throws. -/
def screenshotE (cfg : Config) (name : String) : Eff Unit :=
  fun tr =>
    (tr ++ (if cfg.DEBUG_ENABLED then [Event.screenshot name] else []),
     Except.ok ())

def detectCaptchaE (env : BrowserEnv) : Eff Bool :=
  fun tr =>
    let r := detectCaptcha (fun s => env.found tr s)
    (tr ++ [Event.captchaCheck r], Except.ok r)

/-- A `waitForSelectorWithFallbacks` call; the default timeout mirrors the
    TypeScript default parameter. -/
def resolveE (env : BrowserEnv) (selectors : List String)
    (timeout : ℚ := 10000) : Eff (Option String) :=
  fun tr =>
    (tr ++ [Event.resolve selectors timeout],
     Except.ok (waitForSelectorWithFallbacks
       (fun s t => env.appears tr s t) selectors timeout))

def clickE (env : BrowserEnv) (s : String) : Eff Unit :=
  fun tr => (tr ++ [Event.click s], env.clickRes tr s)

def fillE (env : BrowserEnv) (s v : String) : Eff Unit :=
  fun tr => (tr ++ [Event.fill s v], env.fillRes tr s v)

def checkE (env : BrowserEnv) (s : String) : Eff Unit :=
  fun tr => (tr ++ [Event.checkBox s], env.checkRes tr s)

def waitTimeoutE (env : BrowserEnv) (ms : Nat) : Eff Unit :=
  fun tr => (tr ++ [Event.waitTimeout ms], env.waitTimeoutRes tr ms)

def loadStateE (env : BrowserEnv) : Eff Unit :=
  fun tr => (tr ++ [Event.waitLoadState], env.loadStateRes tr)

def textContentE (env : BrowserEnv) : Eff (Option String) :=
  fun tr => (tr ++ [Event.textContent], env.textContentRes tr)

def formQuerySelector : String := "form, input[type=\"submit\"], button[type=\"submit\"]"

def formQueryE (env : BrowserEnv) : Eff Nat :=
  fun tr => (tr ++ [Event.queryAll formQuerySelector], env.formQueryRes tr)

/-- Models `closePage`: `page.close()` wrapped in `try/catch`; a close error is
    logged as a warning and swallowed, so this never throws. -/
def closePageE (env : BrowserEnv) : Eff Unit := fun tr =>
  match env.closeRes tr with
  | Except.ok _ => (tr ++ [Event.pageClose true], Except.ok ())
  | Except.error e =>
    (tr ++ [Event.pageClose false, Event.logWarn ("Error closing page: " ++ e)],
     Except.ok ())

/-! ### Selector candidate lists (`att-flow.ts`, `status-checker.ts`) -/

def pathSelectorsYes : List String :=
  ["input[value*=\"yes\"]", "input[value*=\"att\"]",
   "button:has-text(\"Yes\")", "button:has-text(\"Sí\")"]

def pathSelectorsNo : List String :=
  ["input[value*=\"no\"]", "input[value*=\"nonatt\"]", "button:has-text(\"No\")"]

def continueSelectors : List String :=
  ["button:has-text(\"Continue\")", "button:has-text(\"Next\")",
   "button:has-text(\"Continuar\")", "button:has-text(\"Siguiente\")",
   "input[type=\"submit\"]", "button[type=\"submit\"]"]

def imeiSelectors : List String :=
  ["input[name*=\"imei\"]", "input[placeholder*=\"IMEI\"]",
   "input[id*=\"imei\"]", "input[aria-label*=\"IMEI\"]"]

def phoneSelectors : List String :=
  ["input[name*=\"phone\"]", "input[name*=\"number\"]",
   "input[placeholder*=\"phone\"]", "input[type=\"tel\"]"]

def makeModelSelectors : List String :=
  ["select[name*=\"make\"]", "select[name*=\"model\"]",
   "select[name*=\"device\"]", "[role=\"combobox\"]", ".select-wrapper select"]

def firstNameSelectors : List String :=
  ["input[name*=\"first\"]", "input[placeholder*=\"First\"]",
   "input[placeholder*=\"Nombre\"]"]

def lastNameSelectors : List String :=
  ["input[name*=\"last\"]", "input[placeholder*=\"Last\"]",
   "input[placeholder*=\"Apellido\"]"]

def emailSelectors : List String :=
  ["input[type=\"email\"]", "input[name*=\"email\"]",
   "input[placeholder*=\"email\"]"]

def confirmEmailSelectors : List String :=
  ["input[name*=\"confirm\"]", "input[placeholder*=\"confirm\"]",
   "input[placeholder*=\"verificar\"]"]

def termsSelectors : List String :=
  ["input[type=\"checkbox\"]", "input[name*=\"terms\"]",
   "input[name*=\"agree\"]", "input[name*=\"accept\"]"]

def submitSelectors : List String :=
  ["button[type=\"submit\"]", "input[type=\"submit\"]",
   "button:has-text(\"Submit\")", "button:has-text(\"Enviar\")",
   "button:has-text(\"Continue\")", "button:has-text(\"Continuar\")"]

def statusImeiSelectors : List String :=
  ["input[name*=\"imei\"]", "input[placeholder*=\"IMEI\"]", "input[id*=\"imei\"]"]

def statusRequestIdSelectors : List String :=
  ["input[name*=\"request\"]", "input[name*=\"case\"]",
   "input[placeholder*=\"Request\"]", "input[placeholder*=\"Case\"]",
   "input[id*=\"request\"]", "input[id*=\"case\"]"]

def statusSubmitSelectors : List String :=
  ["button[type=\"submit\"]", "input[type=\"submit\"]",
   "button:has-text(\"Check Status\")", "button:has-text(\"Submit\")",
   "button:has-text(\"Verificar\")", "button:has-text(\"Enviar\")"]

/-! ### Submission flow (`att-flow.ts`, `ATTFlow`) -/

def captchaMsg : String := "CAPTCHA detectado. Se requiere intervención manual."

def pathMsg : String := "No se pudo encontrar la opción de selección de ruta"

def imeiMsg : String := "No se pudo encontrar el campo IMEI"

def submitMsg : String := "No se pudo encontrar el botón de envío"

def incompleteMsg : String :=
  "La solicitud no se completó correctamente. Es posible que falten campos requeridos."

/-- Models `selectPath(page, hasAttNumber)`. -/
def selectPath (cfg : Config) (env : BrowserEnv) (hasAttNumber : Bool) : Eff Unit :=
  Eff.bind (resolveE env (if hasAttNumber then pathSelectorsYes else pathSelectorsNo))
    (fun foundSelector =>
      match foundSelector with
      | none => Eff.fail pathMsg
      | some sel =>
        Eff.bind (clickE env sel) (fun _ =>
        Eff.bind (waitTimeoutE env 1000) (fun _ =>
        Eff.bind (resolveE env continueSelectors) (fun cont =>
        Eff.bind (match cont with
                  | some c => Eff.bind (clickE env c) (fun _ => loadStateE env)
                  | none => Eff.pure ()) (fun _ =>
        screenshotE cfg "step1-path-selected")))))

/-- The option filter of `selectMakeModel`: value truthy and not the empty
    string, text truthy (non-null, non-empty) and not containing
    `"Select"`. -/
def optionValid (o : JsOption) : Bool :=
  (decide (o.value ≠ "")) &&
  (match o.text with
   | some t => (decide (t ≠ "")) && !(hasSub t.toList "Select".toList)
   | none => false)

/-- Models `selectMakeModel(page)`: absence of the dropdown and any error inside the
    inner `try` (the `$$eval` or the `selectOption`) are logged and swallowed;
    this step never throws. -/
def selectMakeModel (env : BrowserEnv) : Eff Unit :=
  Eff.bind (resolveE env makeModelSelectors) (fun sel =>
    match sel with
    | none => Eff.pure ()
    | some s => fun tr =>
      match env.optionsRes tr (s ++ " option") with
      | Except.error _ => (tr ++ [Event.queryAll (s ++ " option")], Except.ok ())
      | Except.ok opts =>
        let tr2 := tr ++ [Event.queryAll (s ++ " option")]
        match opts.find? optionValid with
        | none => (tr2, Except.ok ())
        | some o => (tr2 ++ [Event.selectOpt s o.value], Except.ok ()))

/-- Models `fillDeviceInfo(page, request)`. -/
def fillDeviceInfo (cfg : Config) (env : BrowserEnv)
    (request : InsertUnlockRequest) : Eff Unit :=
  Eff.bind (resolveE env imeiSelectors) (fun imeiSelector =>
    match imeiSelector with
    | none => Eff.fail imeiMsg
    | some sel =>
      Eff.bind (fillE env sel request.imei) (fun _ =>
      Eff.bind (selectMakeModel env) (fun _ =>
      Eff.bind (if strTruthy request.phoneNumber then
                  Eff.bind (resolveE env phoneSelectors) (fun phoneSelector =>
                    match phoneSelector with
                    | some p => fillE env p (request.phoneNumber.getD "")
                    | none => Eff.pure ())
                else Eff.pure ()) (fun _ =>
      screenshotE cfg "step2-device-info"))))

/-- The recurring pattern of `fillPersonalInfo`: resolve the candidates and
    fill the field when one was found (absence is not fatal). -/
def fillIfFound (env : BrowserEnv) (selectors : List String) (value : String) :
    Eff Unit :=
  Eff.bind (resolveE env selectors) (fun sel =>
    match sel with
    | some s => fillE env s value
    | none => Eff.pure ())

/-- Models `fillPersonalInfo(page, request)`. -/
def fillPersonalInfo (cfg : Config) (env : BrowserEnv)
    (request : InsertUnlockRequest) : Eff Unit :=
  Eff.bind (fillIfFound env firstNameSelectors request.firstName) (fun _ =>
  Eff.bind (fillIfFound env lastNameSelectors request.lastName) (fun _ =>
  Eff.bind (fillIfFound env emailSelectors request.email) (fun _ =>
  Eff.bind (fillIfFound env confirmEmailSelectors request.email) (fun _ =>
  screenshotE cfg "step3-personal-info"))))

/-- Models `acceptTermsAndSubmit(page)`. -/
def acceptTermsAndSubmit (cfg : Config) (env : BrowserEnv) : Eff Unit :=
  Eff.bind (resolveE env termsSelectors) (fun terms =>
  Eff.bind (match terms with
            | some t => checkE env t
            | none => Eff.pure ()) (fun _ =>
  Eff.bind (resolveE env submitSelectors) (fun submitSelector =>
    match submitSelector with
    | none => Eff.fail submitMsg
    | some s =>
      Eff.bind (clickE env s) (fun _ =>
      Eff.bind (loadStateE env) (fun _ =>
      screenshotE cfg "step4-submitted")))))

/-- The `hasConfirmation` expression of `extractConfirmationDetails`: the
    optional chaining `pageText?.toLowerCase().includes(...)` yields a falsy
    `undefined` for every indicator when the body text is `null`. -/
def hasConfirmationOpt : Option String → Bool
  | some t => hasConfirmationText t
  | none => false

/-- Models `extractConfirmationDetails(page)`; `now` is the value of `Date.now()`
    when building the deadline. -/
def extractConfirmationDetails (cfg : Config) (env : BrowserEnv) (now : Nat) :
    Eff SubmissionResult :=
  Eff.bind (textContentE env) (fun pageText =>
    Eff.bind (if !(hasConfirmationOpt pageText) then
                Eff.bind (formQueryE env) (fun n =>
                  if 0 < n then Eff.fail incompleteMsg else Eff.pure ())
              else Eff.pure ()) (fun _ =>
    Eff.bind (screenshotE cfg "step5-confirmation") (fun _ =>
    Eff.pure ⟨true, pageText.bind matchRequestId,
              some (now + 24 * 60 * 60 * 1000), false, none⟩)))

/-- The body of the `try` block of `submitUnlockRequest`, starting after the
    page has been created. -/
def submitAttempt (cfg : Config) (env : BrowserEnv)
    (request : InsertUnlockRequest) (now : Nat) : Eff SubmissionResult :=
  Eff.bind (gotoE env cfg.ATT_UNLOCK_URL) (fun _ =>
  Eff.bind (screenshotE cfg "step1-loaded") (fun _ =>
  Eff.bind (detectCaptchaE env) (fun captchaDetected =>
    if captchaDetected then
      Eff.pure ⟨false, none, none, true, some captchaMsg⟩
    else
      Eff.bind (selectPath cfg env (strTruthy request.phoneNumber)) (fun _ =>
      Eff.bind (fillDeviceInfo cfg env request) (fun _ =>
      Eff.bind (fillPersonalInfo cfg env request) (fun _ =>
      Eff.bind (acceptTermsAndSubmit cfg env) (fun _ =>
      extractConfirmationDetails cfg env now)))))))

/-- The `catch` and `finally` of `submitUnlockRequest`: a returned result is
    kept, a thrown error becomes a failure result after the best-effort
    CAPTCHA re-check, and the page is closed last in either case. -/
def submitFinish (env : BrowserEnv)
    (r : List Event × Except String SubmissionResult) :
    List Event × SubmissionResult :=
  match r with
  | (tr1, Except.ok res) => ((closePageE env tr1).1, res)
  | (tr1, Except.error e) =>
    ((closePageE env
        (tr1 ++ [Event.captchaCheck (detectCaptcha (fun s => env.found tr1 s))])).1,
     ⟨false, none, none, detectCaptcha (fun s => env.found tr1 s), some e⟩)

/-- Models `submitUnlockRequest(request)`: create the page, run the `try` body,
    and finish through `submitFinish`.  When `createPage` itself throws,
    `page` is still `null`: the CAPTCHA re-check is skipped and nothing is
    closed. -/
def submitUnlockRequest (cfg : Config) (env : BrowserEnv)
    (request : InsertUnlockRequest) (now : Nat) :
    List Event × SubmissionResult :=
  match env.createPageRes with
  | Except.error e => ([], ⟨false, none, none, false, some e⟩)
  | Except.ok _ =>
    submitFinish env (submitAttempt cfg env request now [Event.pageCreate])

/-! ### Status flow (`status-checker.ts`, `StatusChecker`) -/

def statusImeiMsg : String := "No se pudo encontrar el campo IMEI en la página de estado"

def statusRequestIdMsg : String := "No se pudo encontrar el campo Request ID"

def statusBodyMsg : String := "No se pudo obtener el contenido de la página de estado"

/-- Models `extractStatusInfo(page)`: read the body text, throw when it is null or
    empty (falsy), then classify. -/
def extractStatusInfoE (env : BrowserEnv) : Eff StatusResult :=
  Eff.bind (textContentE env) (fun pageText =>
    match pageText with
    | none => Eff.fail statusBodyMsg
    | some t =>
      if t = "" then Eff.fail statusBodyMsg
      else fun tr => (tr, extractStatusInfoText t))

/-- The body of the `try` block of `checkStatus`, after page creation. -/
def statusAttempt (cfg : Config) (env : BrowserEnv)
    (imei requestId : String) : Eff StatusResult :=
  Eff.bind (gotoE env cfg.ATT_STATUS_URL) (fun _ =>
  Eff.bind (screenshotE cfg "status-page-loaded") (fun _ =>
  Eff.bind (resolveE env statusImeiSelectors) (fun imeiSelector =>
    match imeiSelector with
    | none => Eff.fail statusImeiMsg
    | some isel =>
      Eff.bind (fillE env isel imei) (fun _ =>
      Eff.bind (resolveE env statusRequestIdSelectors) (fun ridSelector =>
        match ridSelector with
        | none => Eff.fail statusRequestIdMsg
        | some rsel =>
          Eff.bind (fillE env rsel requestId) (fun _ =>
          Eff.bind (resolveE env statusSubmitSelectors) (fun submitSelector =>
            match submitSelector with
            | none => Eff.fail submitMsg
            | some ssel =>
              Eff.bind (clickE env ssel) (fun _ =>
              Eff.bind (loadStateE env) (fun _ =>
              Eff.bind (screenshotE cfg "status-result") (fun _ =>
              extractStatusInfoE env))))))))))

/-- The `catch` and `finally` of `checkStatus`: a returned result is kept, a
    thrown error becomes `{success:false, status:"unknown", errorMessage}`,
    and the page is closed last in either case. -/
def statusFinish (env : BrowserEnv)
    (r : List Event × Except String StatusResult) :
    List Event × StatusResult :=
  match r with
  | (tr1, Except.ok res) => ((closePageE env tr1).1, res)
  | (tr1, Except.error e) =>
    ((closePageE env tr1).1, ⟨false, RequestStatus.UNKNOWN, none, some e⟩)

def checkStatus (cfg : Config) (env : BrowserEnv) (imei requestId : String) :
    List Event × StatusResult :=
  match env.createPageRes with
  | Except.error e => ([], ⟨false, RequestStatus.UNKNOWN, none, some e⟩)
  | Except.ok _ =>
    statusFinish env (statusAttempt cfg env imei requestId [Event.pageCreate])

/-! ### Auxiliary definitions for the verification statements -/

/-- The invariant claimed for every returned `SubmissionResult`. -/
def submissionConsistent (r : SubmissionResult) : Prop :=
  (r.success = true → r.errorMessage = none) ∧
  (r.captchaDetected = true → r.success = false)

/-- The invariant claimed for every returned `StatusResult`. -/
def statusConsistent (r : StatusResult) : Prop :=
  r.success = true → r.errorMessage = none

/-- Predicate: `P` holds of every value an `Eff` computation can return normally. -/
def okResults {α : Type} (P : α → Prop) (x : Eff α) : Prop :=
  ∀ tr tr2 a, x tr = (tr2, Except.ok a) → P a

/-! Demo environments used to instantiate theorems with hypotheses. -/

def cfg0 : Config := {}

/-- An oracle with constant behaviour: `cap` answers the CAPTCHA marker
    queries, `textRes` the body-text reads, `formCount` the form-control
    query, `app` the selector waits. -/
def demoEnv (cap : Bool) (textRes : Except String (Option String))
    (formCount : Nat) (app : Bool) : BrowserEnv where
  createPageRes := Except.ok ()
  gotoRes := fun _ _ => Except.ok ()
  appears := fun _ _ _ => app
  found := fun _ _ => cap
  clickRes := fun _ _ => Except.ok ()
  fillRes := fun _ _ _ => Except.ok ()
  checkRes := fun _ _ => Except.ok ()
  selectOptionRes := fun _ _ _ => Except.ok ()
  loadStateRes := fun _ => Except.ok ()
  waitTimeoutRes := fun _ _ => Except.ok ()
  optionsRes := fun _ _ => Except.ok []
  formQueryRes := fun _ => Except.ok formCount
  textContentRes := fun _ => textRes
  closeRes := fun _ => Except.ok ()

def confirmedPageEnv : BrowserEnv :=
  demoEnv false (Except.ok (some "Request submitted, ID: NUL117557332822")) 0 true

def incompletePageEnv : BrowserEnv :=
  demoEnv false (Except.ok (some "some random page")) 1 true

/-- The trace of the submission flow up to the initial CAPTCHA check: page
    creation, navigation, and the debug-gated screenshot. -/
def initTrace (cfg : Config) : List Event :=
  [Event.pageCreate, Event.goto cfg.ATT_UNLOCK_URL] ++
  (if cfg.DEBUG_ENABLED then [Event.screenshot "step1-loaded"] else [])

/-- Events of the step phases that follow the initial CAPTCHA check: element
    resolution, clicking, filling, checking, option selection, element
    queries and text extraction. -/
def actionEvent : Event → Bool
  | Event.resolve _ _ => true
  | Event.click _ => true
  | Event.fill _ _ => true
  | Event.checkBox _ => true
  | Event.selectOpt _ _ => true
  | Event.queryAll _ => true
  | Event.textContent => true
  | _ => false

def captchaPageEnv : BrowserEnv := demoEnv true (Except.ok none) 0 true

/-- A trace that ends with the page-close attempt: either a successful close,
    or a failed close followed by the warning log entry. -/
def closedTrace (tr : List Event) : Prop :=
  (∃ tr2, tr = tr2 ++ [Event.pageClose true]) ∨
  (∃ tr2 m, tr = tr2 ++ [Event.pageClose false, Event.logWarn m])

def failingCloseEnv : BrowserEnv :=
  { demoEnv false (Except.ok none) 0 false with
    closeRes := fun _ => Except.error "closefail" }

/-- A resolver event that carries the default total budget. -/
def usesDefaultTimeout : Event → Prop
  | Event.resolve _ t => t = 10000
  | _ => True

/-- Every event of the trace satisfies `usesDefaultTimeout`. -/
def traceOk (tr : List Event) : Prop := ∀ e ∈ tr, usesDefaultTimeout e

/-- The computation only appends events satisfying `usesDefaultTimeout`. -/
def keepsOk {α : Type} (x : Eff α) : Prop :=
  ∀ tr tr2 r, x tr = (tr2, r) → traceOk tr → traceOk tr2

def noCaptchaEnv : BrowserEnv := demoEnv false (Except.ok none) 0 false

def req0 : InsertUnlockRequest :=
  ⟨"353012345678901", none, "Juan", "Perez", "juan@example.com"⟩

/-- The detail construction exactly as the specification words it: collect
    the matching lines with context, deduplicated and in order, keep the
    first five, join them, and truncate to 500 characters — without the final
    whitespace trim that the source additionally applies.  Kept separate so
    that it can be compared with `extractStatusDetails`, which follows the
    source. -/
def claimedDetails (pageText : String) (status : String) : String :=
  ⟨(joinChar ' ' ((relevantLinesOf (statusLines pageText) status).take 5)).take 500⟩

/-- A status page text of 501 characters on one line: `"pending"`, 492
    letters `a`, then a space exactly at index 499 and a final `b`.  Plain
    truncation to 500 characters ends in the space; the source additionally
    trims it away. -/
def cexText : String := "pending" ++ (⟨List.replicate 492 'a'⟩ : String) ++ " b"

/-! ### Theorems -/

lemma tryEach_eq_find? (p : String → Bool) (l : List String) :
    tryEach p l = l.find? p := by
  induction l with
  | nil => rfl
  | cons s rest ih =>
    unfold tryEach
    rw [List.find?_cons]
    cases hp : p s <;> simp [hp, ih]

/-- Zeta-reduced form of `jsSubstring`. -/
lemma jsSubstring_eq (s : String) (a b : Int) :
    jsSubstring s a b =
      ⟨(s.toList.take
          ((max (min (max a 0) (s.length : Int))
                (min (max b 0) (s.length : Int))).toNat)).drop
        ((min (min (max a 0) (s.length : Int))
              (min (max b 0) (s.length : Int))).toNat)⟩ := rfl

lemma toList_length (s : String) : s.toList.length = s.length := rfl

/-- C9: `imei.substring(-4)` clamps the negative start index to 0 and so
    returns the whole string; `maskImei` therefore yields the first six
    characters, the `"****"` separator, and the entire IMEI. -/
theorem c9_mask_imei_substring_negative (imei : String) :
    jsSubstringFrom imei (-4) = imei ∧
    maskImei imei = (⟨imei.toList.take 6⟩ : String) ++ "****" ++ imei := by
  have hlen : (0 : Int) ≤ (imei.length : Int) := Int.ofNat_nonneg _
  have hfrom : jsSubstringFrom imei (-4) = imei := by
    unfold jsSubstringFrom
    rw [jsSubstring_eq]
    have h1 : (min (min (max (-4 : Int) 0) (imei.length : Int))
        (min (max ((imei.length : Int)) 0) (imei.length : Int))).toNat = 0 := by
      omega
    have h2 : (max (min (max (-4 : Int) 0) (imei.length : Int))
        (min (max ((imei.length : Int)) 0) (imei.length : Int))).toNat
        = imei.toList.length := by
      rw [toList_length]
      omega
    rw [h1, h2, List.take_length, List.drop_zero]
    rfl
  refine ⟨hfrom, ?_⟩
  have hfirst : jsSubstring imei 0 6 = (⟨imei.toList.take 6⟩ : String) := by
    rw [jsSubstring_eq]
    have h1 : (min (min (max (0 : Int) 0) (imei.length : Int))
        (min (max (6 : Int) 0) (imei.length : Int))).toNat = 0 := by
      omega
    have h2 : (max (min (max (0 : Int) 0) (imei.length : Int))
        (min (max (6 : Int) 0) (imei.length : Int))).toNat
        = min 6 imei.toList.length := by
      rw [toList_length]
      omega
    rw [h1, h2, List.drop_zero]
    congr 1
    rw [List.take_eq_take]
    omega
  unfold maskImei
  rw [hfirst, hfrom]

/-- C4: the element resolver tries the candidates in order, giving each the
    slice `timeout / N`; it returns the first candidate present within its
    slice (in particular the head whenever the head is present), and `none`
    instead of an error when no candidate is present. -/
theorem c4_element_resolver (appears : String → ℚ → Bool)
    (selectors : List String) (t : ℚ) (hne : selectors ≠ []) :
    (waitForSelectorWithFallbacks appears selectors t
       = selectors.find? (fun s => appears s (t / selectors.length)))
    ∧ (∀ s rest, selectors = s :: rest →
        appears s (t / selectors.length) = true →
        waitForSelectorWithFallbacks appears selectors t = some s)
    ∧ ((∀ s ∈ selectors, appears s (t / selectors.length) = false) →
        waitForSelectorWithFallbacks appears selectors t = none) := by
  refine ⟨tryEach_eq_find? _ _, ?_, ?_⟩
  · intro s rest hsel happ
    subst hsel
    unfold waitForSelectorWithFallbacks tryEach
    rw [if_pos]
    exact happ
  · intro hnone
    unfold waitForSelectorWithFallbacks
    rw [tryEach_eq_find?]
    rw [List.find?_eq_none]
    intro s hs
    simp [hnone s hs]

theorem c4_element_resolver_witness :
    waitForSelectorWithFallbacks (fun s _ => s == "a") ["a", "b"] 10 = some "a" :=
  (c4_element_resolver (fun s _ => s == "a") ["a", "b"] 10 (by decide)).2.1
    "a" ["b"] rfl (by decide)

/-- C5: the classifier checks the keyword groups in the order approved,
    denied, pending, and reaches the error synonyms only when none of the
    three matched; a text with both an approved and an error keyword
    classifies as approved. -/
theorem c5_classifier_precedence (text : String) :
    (matchesAny (lowerL text.toList) approvedPatterns = true →
      extractStatusInfoText text =
        Except.ok ⟨true, RequestStatus.APPROVED,
          some (extractStatusDetails text RequestStatus.APPROVED), none⟩)
    ∧ (matchesAny (lowerL text.toList) approvedPatterns = false →
       matchesAny (lowerL text.toList) deniedPatterns = true →
      extractStatusInfoText text =
        Except.ok ⟨true, RequestStatus.DENIED,
          some (extractStatusDetails text RequestStatus.DENIED), none⟩)
    ∧ (matchesAny (lowerL text.toList) approvedPatterns = false →
       matchesAny (lowerL text.toList) deniedPatterns = false →
       matchesAny (lowerL text.toList) pendingPatterns = true →
      extractStatusInfoText text =
        Except.ok ⟨true, RequestStatus.PENDING,
          some (extractStatusDetails text RequestStatus.PENDING), none⟩)
    ∧ ((matchesAny (lowerL text.toList) approvedPatterns = true ∨
        matchesAny (lowerL text.toList) deniedPatterns = true ∨
        matchesAny (lowerL text.toList) pendingPatterns = true) →
        ∃ r, extractStatusInfoText text = Except.ok r) := by
  have hdata : text.toList = text.data := rfl
  rw [hdata]
  have capp : matchesAny (lowerL text.data) approvedPatterns = true →
      extractStatusInfoText text =
        Except.ok ⟨true, RequestStatus.APPROVED,
          some (extractStatusDetails text RequestStatus.APPROVED), none⟩ := by
    intro h1
    simp [extractStatusInfoText, statusGroups, List.find?_cons, String.toList, h1]
  have cden : matchesAny (lowerL text.data) approvedPatterns = false →
      matchesAny (lowerL text.data) deniedPatterns = true →
      extractStatusInfoText text =
        Except.ok ⟨true, RequestStatus.DENIED,
          some (extractStatusDetails text RequestStatus.DENIED), none⟩ := by
    intro h1 h2
    simp [extractStatusInfoText, statusGroups, List.find?_cons, String.toList,
      h1, h2]
  have cpen : matchesAny (lowerL text.data) approvedPatterns = false →
      matchesAny (lowerL text.data) deniedPatterns = false →
      matchesAny (lowerL text.data) pendingPatterns = true →
      extractStatusInfoText text =
        Except.ok ⟨true, RequestStatus.PENDING,
          some (extractStatusDetails text RequestStatus.PENDING), none⟩ := by
    intro h1 h2 h3
    simp [extractStatusInfoText, statusGroups, List.find?_cons, String.toList,
      h1, h2, h3]
  refine ⟨capp, cden, cpen, ?_⟩
  intro h
  cases h1 : matchesAny (lowerL text.data) approvedPatterns
  · cases h2 : matchesAny (lowerL text.data) deniedPatterns
    · have h3 : matchesAny (lowerL text.data) pendingPatterns = true := by
        rcases h with h | h | h
        · rw [h1] at h; exact absurd h (by simp)
        · rw [h2] at h; exact absurd h (by simp)
        · exact h
      exact ⟨_, cpen h1 h2 h3⟩
    · exact ⟨_, cden h1 h2⟩
  · exact ⟨_, capp h1⟩

theorem c5_classifier_precedence_witness :
    extractStatusInfoText "approved error" =
      Except.ok ⟨true, RequestStatus.APPROVED,
        some (extractStatusDetails "approved error" RequestStatus.APPROVED),
        none⟩ :=
  (c5_classifier_precedence "approved error").1 (by decide)

/-! ### C1: self-consistency of the returned result records -/

lemma okResults_bind {α β : Type} {P : β → Prop} (x : Eff α) (f : α → Eff β)
    (hf : ∀ a, okResults P (f a)) : okResults P (Eff.bind x f) := by
  intro tr tr2 b hb
  unfold Eff.bind at hb
  rcases hx : x tr with ⟨tr1, r⟩
  rw [hx] at hb
  cases r with
  | ok a => exact hf a _ _ _ hb
  | error e => simp at hb

lemma okResults_pure {α : Type} {P : α → Prop} (a : α) (h : P a) :
    okResults P (Eff.pure a) := by
  intro tr tr2 b hb
  unfold Eff.pure at hb
  simp at hb
  exact hb.2 ▸ h

lemma okResults_fail {α : Type} {P : α → Prop} (e : String) :
    okResults P (Eff.fail e) := by
  intro tr tr2 b hb
  unfold Eff.fail at hb
  simp at hb

lemma okResults_extractConfirmation (cfg : Config) (env : BrowserEnv)
    (now : Nat) :
    okResults submissionConsistent (extractConfirmationDetails cfg env now) := by
  unfold extractConfirmationDetails
  apply okResults_bind; intro pageText
  apply okResults_bind; intro _
  apply okResults_bind; intro _
  apply okResults_pure
  exact ⟨fun _ => rfl, fun h => by simp at h⟩

lemma okResults_submitAttempt (cfg : Config) (env : BrowserEnv)
    (req : InsertUnlockRequest) (now : Nat) :
    okResults submissionConsistent (submitAttempt cfg env req now) := by
  unfold submitAttempt
  apply okResults_bind; intro _
  apply okResults_bind; intro _
  apply okResults_bind; intro captcha
  cases captcha
  · rw [if_neg (by simp)]
    apply okResults_bind; intro _
    apply okResults_bind; intro _
    apply okResults_bind; intro _
    apply okResults_bind; intro _
    exact okResults_extractConfirmation cfg env now
  · rw [if_pos rfl]
    apply okResults_pure
    exact ⟨fun h => by simp at h, fun _ => rfl⟩

lemma extractStatusInfoText_ok (t : String) (a : StatusResult)
    (h : extractStatusInfoText t = Except.ok a) :
    a.success = true ∧ a.errorMessage = none := by
  unfold extractStatusInfoText at h
  split at h
  · injection h with h2
    exact ⟨by rw [← h2], by rw [← h2]⟩
  · split at h
    · exact absurd h (by simp)
    · injection h with h2
      exact ⟨by rw [← h2], by rw [← h2]⟩

lemma okResults_extractStatusInfoE (env : BrowserEnv) :
    okResults statusConsistent (extractStatusInfoE env) := by
  unfold extractStatusInfoE
  apply okResults_bind; intro pageText
  cases pageText with
  | none => exact okResults_fail _
  | some t =>
    show okResults statusConsistent
      (if t = "" then Eff.fail statusBodyMsg
       else fun tr => (tr, extractStatusInfoText t))
    by_cases ht : t = ""
    · rw [if_pos ht]; exact okResults_fail _
    · rw [if_neg ht]
      intro tr tr2 a ha
      injection ha with h1 h2
      exact fun _ => (extractStatusInfoText_ok t a h2).2

lemma okResults_statusAttempt (cfg : Config) (env : BrowserEnv)
    (imei requestId : String) :
    okResults statusConsistent (statusAttempt cfg env imei requestId) := by
  unfold statusAttempt
  apply okResults_bind; intro _
  apply okResults_bind; intro _
  apply okResults_bind; intro imeiSelector
  cases imeiSelector with
  | none => exact okResults_fail _
  | some isel =>
    apply okResults_bind; intro _
    apply okResults_bind; intro ridSelector
    cases ridSelector with
    | none => exact okResults_fail _
    | some rsel =>
      apply okResults_bind; intro _
      apply okResults_bind; intro submitSelector
      cases submitSelector with
      | none => exact okResults_fail _
      | some ssel =>
        apply okResults_bind; intro _
        apply okResults_bind; intro _
        apply okResults_bind; intro _
        exact okResults_extractStatusInfoE env

/-- C1: every `SubmissionResult` returned by the submission flow and every
    `StatusResult` returned by the status flow is self-consistent:
    `success = true` implies no `errorMessage`, and `captchaDetected = true`
    on a submission implies `success = false`. -/
theorem c1_results_self_consistent (cfg : Config) (env : BrowserEnv)
    (req : InsertUnlockRequest) (now : Nat) (imei requestId : String) :
    submissionConsistent (submitUnlockRequest cfg env req now).2 ∧
    statusConsistent (checkStatus cfg env imei requestId).2 := by
  constructor
  · unfold submitUnlockRequest
    cases hcp : env.createPageRes with
    | error e => exact ⟨fun h => by simp at h, fun _ => rfl⟩
    | ok u =>
      rcases hr : submitAttempt cfg env req now [Event.pageCreate] with ⟨tr1, r⟩
      cases r with
      | ok res =>
        unfold submitFinish
        exact okResults_submitAttempt cfg env req now _ _ _ hr
      | error e =>
        unfold submitFinish
        exact ⟨fun h => by simp at h, fun _ => rfl⟩
  · unfold checkStatus
    cases hcp : env.createPageRes with
    | error e => exact fun h => by simp at h
    | ok u =>
      rcases hr : statusAttempt cfg env imei requestId [Event.pageCreate]
        with ⟨tr1, r⟩
      cases r with
      | ok res =>
        unfold statusFinish
        exact okResults_statusAttempt cfg env imei requestId _ _ _ hr
      | error e =>
        unfold statusFinish
        exact fun h => by simp at h

theorem c1_results_self_consistent_witness :
    (submitUnlockRequest cfg0 captchaPageEnv req0 0).2.success = false :=
  (c1_results_self_consistent cfg0 captchaPageEnv req0 0 "353012345678901"
    "NUL117557332822").1.2 (by decide)

/-! ### C2 / C3: confirmation extraction -/

/-- C2: on a result page whose text contains a confirmation keyword, the
    extraction succeeds with `captchaDetected = false` and a deadline exactly
    24 hours (in milliseconds) after the invocation time; the confirmation id
    is the matched `[A-Z]{3}\d{12}` token when one is present, and absent
    when none is (success is still reported). -/
theorem c2_confirmation_extraction (cfg : Config) (env : BrowserEnv)
    (now : Nat) (tr : List Event) (text : String)
    (htext : env.textContentRes tr = Except.ok (some text))
    (hconf : hasConfirmationText text = true) :
    (∀ m, findConfId text.toList = some m →
      extractConfirmationDetails cfg env now tr =
        (tr ++ [Event.textContent] ++
           (if cfg.DEBUG_ENABLED then [Event.screenshot "step5-confirmation"]
            else []),
         Except.ok ⟨true, some ⟨m⟩, some (now + 24 * 60 * 60 * 1000),
                    false, none⟩))
    ∧ (findConfId text.toList = none →
      extractConfirmationDetails cfg env now tr =
        (tr ++ [Event.textContent] ++
           (if cfg.DEBUG_ENABLED then [Event.screenshot "step5-confirmation"]
            else []),
         Except.ok ⟨true, none, some (now + 24 * 60 * 60 * 1000),
                    false, none⟩)) := by
  constructor
  · intro m hm
    simp only [String.toList] at hm
    simp [extractConfirmationDetails, textContentE, Eff.bind, Eff.pure,
      screenshotE, htext, hasConfirmationOpt, hconf, matchRequestId, hm]
  · intro hm
    simp only [String.toList] at hm
    simp [extractConfirmationDetails, textContentE, Eff.bind, Eff.pure,
      screenshotE, htext, hasConfirmationOpt, hconf, matchRequestId, hm]

/-- C3: when the result page shows no confirmation keyword and a form or
    submit control is still present, the extraction throws the explicit
    incomplete-submission message, and the submission flow converts exactly
    that message (not a generic transport error) into a
    `success = false` result. -/
theorem c3_incomplete_submission :
    (∀ (cfg : Config) (env : BrowserEnv) (now : Nat) (tr : List Event)
       (pt : Option String) (n : Nat),
      env.textContentRes tr = Except.ok pt →
      hasConfirmationOpt pt = false →
      env.formQueryRes (tr ++ [Event.textContent]) = Except.ok n →
      0 < n →
      extractConfirmationDetails cfg env now tr =
        (tr ++ [Event.textContent, Event.queryAll formQuerySelector],
         Except.error incompleteMsg))
    ∧ (∀ (cfg : Config) (env : BrowserEnv) (req : InsertUnlockRequest)
         (now : Nat),
      env.createPageRes = Except.ok () →
      (submitAttempt cfg env req now [Event.pageCreate]).2 =
        Except.error incompleteMsg →
      (submitUnlockRequest cfg env req now).2.success = false ∧
      (submitUnlockRequest cfg env req now).2.errorMessage =
        some incompleteMsg) := by
  constructor
  · intro cfg env now tr pt n htext hconf hform hn
    simp [extractConfirmationDetails, textContentE, formQueryE, Eff.bind,
      Eff.pure, Eff.fail, htext, hconf, hform, hn]
  · intro cfg env req now hcreate herr
    unfold submitUnlockRequest
    rw [hcreate]
    rcases hr : submitAttempt cfg env req now [Event.pageCreate] with ⟨tr1, r⟩
    rw [hr] at herr
    simp only at herr
    rw [herr]
    unfold submitFinish
    exact ⟨rfl, rfl⟩

theorem c2_confirmation_extraction_witness :
    extractConfirmationDetails cfg0 confirmedPageEnv 0 [] =
      ([Event.textContent],
       Except.ok ⟨true, some "NUL117557332822", some 86400000, false, none⟩) :=
  (c2_confirmation_extraction cfg0 confirmedPageEnv 0 []
      "Request submitted, ID: NUL117557332822" rfl (by decide)).1
    "NUL117557332822".toList (by decide)

theorem c3_incomplete_submission_witness :
    extractConfirmationDetails cfg0 incompletePageEnv 0 [] =
      ([Event.textContent, Event.queryAll formQuerySelector],
       Except.error incompleteMsg) :=
  c3_incomplete_submission.1 cfg0 incompletePageEnv 0 []
    (some "some random page") 1 rfl (by decide) rfl (by decide)

/-! ### C6: CAPTCHA on the initial page aborts the submission immediately -/

/-- C6: when the CAPTCHA detector reports a marker right after the initial
    page load, the submission flow returns
    `{success:false, captchaDetected:true}` at once, and its whole trace
    contains no path-selection, filling or submission operation. -/
theorem c6_captcha_aborts_immediately (cfg : Config) (env : BrowserEnv)
    (req : InsertUnlockRequest) (now : Nat)
    (hcreate : env.createPageRes = Except.ok ())
    (hgoto : env.gotoRes [Event.pageCreate] cfg.ATT_UNLOCK_URL = Except.ok ())
    (hcap : detectCaptcha (env.found (initTrace cfg)) = true) :
    (submitUnlockRequest cfg env req now).2 =
      ⟨false, none, none, true, some captchaMsg⟩ ∧
    ∀ e ∈ (submitUnlockRequest cfg env req now).1, actionEvent e = false := by
  simp only [initTrace, List.cons_append, List.nil_append] at hcap
  have hatt : submitAttempt cfg env req now [Event.pageCreate] =
      (initTrace cfg ++ [Event.captchaCheck true],
       Except.ok ⟨false, none, none, true, some captchaMsg⟩) := by
    unfold submitAttempt
    simp [Eff.bind, gotoE, screenshotE, detectCaptchaE, Eff.pure, hgoto,
      initTrace, hcap]
  have hmain : submitUnlockRequest cfg env req now =
      ((closePageE env (initTrace cfg ++ [Event.captchaCheck true])).1,
       ⟨false, none, none, true, some captchaMsg⟩) := by
    unfold submitUnlockRequest
    rw [hcreate, hatt]
    rfl
  refine ⟨by rw [hmain], ?_⟩
  rw [hmain]
  have hinit : ∀ e ∈ initTrace cfg ++ [Event.captchaCheck true],
      actionEvent e = false := by
    intro e he
    unfold initTrace at he
    by_cases hd : cfg.DEBUG_ENABLED <;>
      simp [hd, List.mem_append, List.mem_cons] at he <;>
      rcases he with rfl | rfl | rfl | rfl <;> rfl
  intro e he
  unfold closePageE at he
  cases hc : env.closeRes (initTrace cfg ++ [Event.captchaCheck true]) with
  | ok u =>
    rw [hc] at he
    rcases List.mem_append.mp he with h | h
    · exact hinit e h
    · rw [List.mem_singleton.mp h]; rfl
  | error er =>
    rw [hc] at he
    rcases List.mem_append.mp he with h | h
    · exact hinit e h
    · rcases List.mem_cons.mp h with rfl | h2
      · rfl
      · rw [List.mem_singleton.mp h2]; rfl

theorem c6_captcha_aborts_immediately_witness :
    (submitUnlockRequest cfg0 captchaPageEnv
        ⟨"353012345678901", none, "Juan", "P", "j@example.com"⟩ 0).2 =
      ⟨false, none, none, true, some captchaMsg⟩ :=
  (c6_captcha_aborts_immediately cfg0 captchaPageEnv
      ⟨"353012345678901", none, "Juan", "P", "j@example.com"⟩ 0
      rfl rfl (by decide)).1

/-! ### C8: guaranteed page teardown -/

lemma closePageE_closed (env : BrowserEnv) (tr0 : List Event) :
    closedTrace (closePageE env tr0).1 := by
  unfold closePageE closedTrace
  cases hc : env.closeRes tr0 with
  | ok u => exact Or.inl ⟨tr0, rfl⟩
  | error e => exact Or.inr ⟨tr0, _, rfl⟩

lemma submitAttempt_closeRes_irrelevant (cfg : Config) (env : BrowserEnv)
    (req : InsertUnlockRequest) (now : Nat)
    (c : List Event → Except String Unit) :
    submitAttempt cfg {env with closeRes := c} req now =
      submitAttempt cfg env req now := rfl

lemma statusAttempt_closeRes_irrelevant (cfg : Config) (env : BrowserEnv)
    (imei requestId : String) (c : List Event → Except String Unit) :
    statusAttempt cfg {env with closeRes := c} imei requestId =
      statusAttempt cfg env imei requestId := rfl

/-- C8: on every exit path on which a page was created — the normal return,
    the CAPTCHA abort, and every caught error — both flows end their trace
    with the page-close attempt; an error thrown by `page.close()` is turned
    into a warning log entry and swallowed (`closePageE` still returns
    normally), and the flow result does not depend on the close outcome. -/
theorem c8_page_always_closed :
    (∀ (env : BrowserEnv) (tr : List Event) (e : String),
      env.closeRes tr = Except.error e →
      closePageE env tr =
        (tr ++ [Event.pageClose false,
                Event.logWarn ("Error closing page: " ++ e)], Except.ok ()))
    ∧ (∀ (cfg : Config) (env : BrowserEnv) (req : InsertUnlockRequest)
         (now : Nat),
        env.createPageRes = Except.ok () →
        closedTrace (submitUnlockRequest cfg env req now).1 ∧
        ∀ c, (submitUnlockRequest cfg {env with closeRes := c} req now).2 =
             (submitUnlockRequest cfg env req now).2)
    ∧ (∀ (cfg : Config) (env : BrowserEnv) (imei requestId : String),
        env.createPageRes = Except.ok () →
        closedTrace (checkStatus cfg env imei requestId).1 ∧
        ∀ c, (checkStatus cfg {env with closeRes := c} imei requestId).2 =
             (checkStatus cfg env imei requestId).2) := by
  refine ⟨?_, ?_, ?_⟩
  · intro env tr e h
    unfold closePageE
    rw [h]
  · intro cfg env req now hcreate
    constructor
    · unfold submitUnlockRequest
      rw [hcreate]
      rcases hr : submitAttempt cfg env req now [Event.pageCreate] with ⟨tr1, r⟩
      cases r with
      | ok res => exact closePageE_closed env tr1
      | error e => exact closePageE_closed env _
    · intro c
      unfold submitUnlockRequest
      rw [submitAttempt_closeRes_irrelevant,
          show ({env with closeRes := c} : BrowserEnv).createPageRes =
            env.createPageRes from rfl, hcreate]
      rcases hr : submitAttempt cfg env req now [Event.pageCreate] with ⟨tr1, r⟩
      cases r with
      | ok res => rfl
      | error e => rfl
  · intro cfg env imei requestId hcreate
    constructor
    · unfold checkStatus
      rw [hcreate]
      rcases hr : statusAttempt cfg env imei requestId [Event.pageCreate]
        with ⟨tr1, r⟩
      cases r with
      | ok res => exact closePageE_closed env tr1
      | error e => exact closePageE_closed env tr1
    · intro c
      unfold checkStatus
      rw [statusAttempt_closeRes_irrelevant,
          show ({env with closeRes := c} : BrowserEnv).createPageRes =
            env.createPageRes from rfl, hcreate]
      rcases hr : statusAttempt cfg env imei requestId [Event.pageCreate]
        with ⟨tr1, r⟩
      cases r with
      | ok res => rfl
      | error e => rfl

theorem c8_page_always_closed_witness :
    closePageE failingCloseEnv [] =
      ([Event.pageClose false, Event.logWarn "Error closing page: closefail"],
       Except.ok ()) :=
  c8_page_always_closed.1 failingCloseEnv [] "closefail" rfl

/-! ### C10: every resolver call uses the hard-coded 10000 ms default -/

lemma traceOk_append {l1 l2 : List Event} (h1 : traceOk l1) (h2 : traceOk l2) :
    traceOk (l1 ++ l2) := by
  intro e he
  rcases List.mem_append.mp he with h | h
  · exact h1 e h
  · exact h2 e h

lemma traceOk_single {e : Event} (h : usesDefaultTimeout e) : traceOk [e] := by
  intro x hx
  rw [List.mem_singleton.mp hx]
  exact h

lemma keepsOk_bind {α β : Type} {x : Eff α} {f : α → Eff β}
    (hx : keepsOk x) (hf : ∀ a, keepsOk (f a)) : keepsOk (Eff.bind x f) := by
  intro tr tr2 r h htr
  unfold Eff.bind at h
  rcases h1 : x tr with ⟨tr1, r1⟩
  rw [h1] at h
  cases r1 with
  | ok a => exact hf a tr1 tr2 r h (hx tr tr1 _ h1 htr)
  | error e =>
    injection h with h2 h3
    rw [← h2]
    exact hx tr tr1 _ h1 htr

lemma keepsOk_pure {α : Type} (a : α) : keepsOk (Eff.pure a) := by
  intro tr tr2 r h htr
  unfold Eff.pure at h
  injection h with h1 h2
  rw [← h1]
  exact htr

lemma keepsOk_fail {α : Type} (e : String) : keepsOk (@Eff.fail α e) := by
  intro tr tr2 r h htr
  unfold Eff.fail at h
  injection h with h1 h2
  rw [← h1]
  exact htr

/-- Any primitive of the shape `fun tr => (tr ++ evs, res tr)` keeps the
    trace clean when its events are clean. -/
lemma keepsOk_emit {α : Type} (evs : List Event → List Event)
    (res : List Event → Except String α)
    (hevs : ∀ tr, traceOk (evs tr)) :
    keepsOk (fun tr => (tr ++ evs tr, res tr)) := by
  intro tr tr2 r h htr
  injection h with h1 h2
  rw [← h1]
  exact traceOk_append htr (hevs tr)

lemma keepsOk_gotoE (env : BrowserEnv) (url : String) :
    keepsOk (gotoE env url) :=
  keepsOk_emit _ _ (fun _ => traceOk_single trivial)

lemma keepsOk_screenshotE (cfg : Config) (name : String) :
    keepsOk (screenshotE cfg name) := by
  apply keepsOk_emit
  intro _
  by_cases hd : cfg.DEBUG_ENABLED
  · rw [if_pos hd]
    exact traceOk_single trivial
  · rw [if_neg hd]
    intro e he
    simp at he

lemma keepsOk_detectCaptchaE (env : BrowserEnv) :
    keepsOk (detectCaptchaE env) := by
  intro tr tr2 r h htr
  unfold detectCaptchaE at h
  injection h with h1 h2
  rw [← h1]
  exact traceOk_append htr (traceOk_single trivial)

lemma keepsOk_resolveE (env : BrowserEnv) (selectors : List String) :
    keepsOk (resolveE env selectors) := by
  intro tr tr2 r h htr
  unfold resolveE at h
  injection h with h1 h2
  rw [← h1]
  exact traceOk_append htr (traceOk_single rfl)

lemma keepsOk_clickE (env : BrowserEnv) (s : String) : keepsOk (clickE env s) :=
  keepsOk_emit _ _ (fun _ => traceOk_single trivial)

lemma keepsOk_fillE (env : BrowserEnv) (s v : String) :
    keepsOk (fillE env s v) :=
  keepsOk_emit _ _ (fun _ => traceOk_single trivial)

lemma keepsOk_checkE (env : BrowserEnv) (s : String) : keepsOk (checkE env s) :=
  keepsOk_emit _ _ (fun _ => traceOk_single trivial)

lemma keepsOk_waitTimeoutE (env : BrowserEnv) (ms : Nat) :
    keepsOk (waitTimeoutE env ms) :=
  keepsOk_emit _ _ (fun _ => traceOk_single trivial)

lemma keepsOk_loadStateE (env : BrowserEnv) : keepsOk (loadStateE env) :=
  keepsOk_emit _ _ (fun _ => traceOk_single trivial)

lemma keepsOk_textContentE (env : BrowserEnv) : keepsOk (textContentE env) :=
  keepsOk_emit _ _ (fun _ => traceOk_single trivial)

lemma keepsOk_formQueryE (env : BrowserEnv) : keepsOk (formQueryE env) :=
  keepsOk_emit _ _ (fun _ => traceOk_single trivial)

lemma keepsOk_selectMakeModel (env : BrowserEnv) :
    keepsOk (selectMakeModel env) := by
  unfold selectMakeModel
  apply keepsOk_bind (keepsOk_resolveE env makeModelSelectors)
  intro sel
  cases sel with
  | none => exact keepsOk_pure ()
  | some s =>
    intro tr tr2 r h htr
    simp only at h
    split at h
    · injection h with h1 h2
      rw [← h1]
      exact traceOk_append htr (traceOk_single trivial)
    · split at h
      · injection h with h1 h2
        rw [← h1]
        exact traceOk_append htr (traceOk_single trivial)
      · injection h with h1 h2
        rw [← h1]
        refine traceOk_append (traceOk_append htr (traceOk_single ?_))
          (traceOk_single ?_) <;> trivial

lemma keepsOk_selectPath (cfg : Config) (env : BrowserEnv) (b : Bool) :
    keepsOk (selectPath cfg env b) := by
  unfold selectPath
  apply keepsOk_bind (keepsOk_resolveE env _)
  intro sel
  cases sel with
  | none => exact keepsOk_fail _
  | some s =>
    apply keepsOk_bind (keepsOk_clickE env s); intro _
    apply keepsOk_bind (keepsOk_waitTimeoutE env 1000); intro _
    apply keepsOk_bind (keepsOk_resolveE env continueSelectors); intro cont
    apply keepsOk_bind
    · cases cont with
      | some cs =>
        exact keepsOk_bind (keepsOk_clickE env cs) fun _ => keepsOk_loadStateE env
      | none => exact keepsOk_pure ()
    · intro _
      exact keepsOk_screenshotE cfg _

lemma keepsOk_fillDeviceInfo (cfg : Config) (env : BrowserEnv)
    (req : InsertUnlockRequest) : keepsOk (fillDeviceInfo cfg env req) := by
  unfold fillDeviceInfo
  apply keepsOk_bind (keepsOk_resolveE env imeiSelectors)
  intro sel
  cases sel with
  | none => exact keepsOk_fail _
  | some s =>
    apply keepsOk_bind (keepsOk_fillE env s req.imei); intro _
    apply keepsOk_bind (keepsOk_selectMakeModel env); intro _
    apply keepsOk_bind
    · cases strTruthy req.phoneNumber with
      | true =>
        rw [if_pos rfl]
        apply keepsOk_bind (keepsOk_resolveE env phoneSelectors)
        intro ps
        cases ps with
        | some p => exact keepsOk_fillE env p _
        | none => exact keepsOk_pure ()
      | false =>
        rw [if_neg (by simp)]
        exact keepsOk_pure ()
    · intro _
      exact keepsOk_screenshotE cfg _

lemma keepsOk_fillIfFound (env : BrowserEnv) (selectors : List String)
    (value : String) : keepsOk (fillIfFound env selectors value) := by
  unfold fillIfFound
  apply keepsOk_bind (keepsOk_resolveE env selectors)
  intro sel
  cases sel with
  | some s => exact keepsOk_fillE env s value
  | none => exact keepsOk_pure ()

lemma keepsOk_fillPersonalInfo (cfg : Config) (env : BrowserEnv)
    (req : InsertUnlockRequest) : keepsOk (fillPersonalInfo cfg env req) := by
  unfold fillPersonalInfo
  apply keepsOk_bind (keepsOk_fillIfFound env _ _); intro _
  apply keepsOk_bind (keepsOk_fillIfFound env _ _); intro _
  apply keepsOk_bind (keepsOk_fillIfFound env _ _); intro _
  apply keepsOk_bind (keepsOk_fillIfFound env _ _); intro _
  exact keepsOk_screenshotE cfg _

lemma keepsOk_acceptTermsAndSubmit (cfg : Config) (env : BrowserEnv) :
    keepsOk (acceptTermsAndSubmit cfg env) := by
  unfold acceptTermsAndSubmit
  apply keepsOk_bind (keepsOk_resolveE env termsSelectors)
  intro terms
  apply keepsOk_bind
  · cases terms with
    | some t => exact keepsOk_checkE env t
    | none => exact keepsOk_pure ()
  · intro _
    apply keepsOk_bind (keepsOk_resolveE env submitSelectors)
    intro sub
    cases sub with
    | none => exact keepsOk_fail _
    | some s =>
      apply keepsOk_bind (keepsOk_clickE env s); intro _
      apply keepsOk_bind (keepsOk_loadStateE env); intro _
      exact keepsOk_screenshotE cfg _

lemma keepsOk_extractConfirmationDetails (cfg : Config) (env : BrowserEnv)
    (now : Nat) : keepsOk (extractConfirmationDetails cfg env now) := by
  unfold extractConfirmationDetails
  apply keepsOk_bind (keepsOk_textContentE env)
  intro pageText
  apply keepsOk_bind
  · cases hasConfirmationOpt pageText with
    | true => rw [show (!true) = false from rfl, if_neg (by simp)]
              exact keepsOk_pure ()
    | false =>
      rw [show (!false) = true from rfl, if_pos rfl]
      apply keepsOk_bind (keepsOk_formQueryE env)
      intro n
      by_cases hn : 0 < n
      · rw [if_pos hn]; exact keepsOk_fail _
      · rw [if_neg hn]; exact keepsOk_pure ()
  · intro _
    apply keepsOk_bind (keepsOk_screenshotE cfg _)
    intro _
    exact keepsOk_pure _

lemma keepsOk_submitAttempt (cfg : Config) (env : BrowserEnv)
    (req : InsertUnlockRequest) (now : Nat) :
    keepsOk (submitAttempt cfg env req now) := by
  unfold submitAttempt
  apply keepsOk_bind (keepsOk_gotoE env _); intro _
  apply keepsOk_bind (keepsOk_screenshotE cfg _); intro _
  apply keepsOk_bind (keepsOk_detectCaptchaE env); intro captcha
  cases captcha with
  | true => rw [if_pos rfl]; exact keepsOk_pure _
  | false =>
    rw [if_neg (by simp)]
    apply keepsOk_bind (keepsOk_selectPath cfg env _); intro _
    apply keepsOk_bind (keepsOk_fillDeviceInfo cfg env req); intro _
    apply keepsOk_bind (keepsOk_fillPersonalInfo cfg env req); intro _
    apply keepsOk_bind (keepsOk_acceptTermsAndSubmit cfg env); intro _
    exact keepsOk_extractConfirmationDetails cfg env now

lemma keepsOk_extractStatusInfoE (env : BrowserEnv) :
    keepsOk (extractStatusInfoE env) := by
  unfold extractStatusInfoE
  apply keepsOk_bind (keepsOk_textContentE env)
  intro pageText
  cases pageText with
  | none => exact keepsOk_fail _
  | some t =>
    show keepsOk (if t = "" then Eff.fail statusBodyMsg
                  else fun tr => (tr, extractStatusInfoText t))
    by_cases ht : t = ""
    · rw [if_pos ht]; exact keepsOk_fail _
    · rw [if_neg ht]
      intro tr tr2 r h htr
      injection h with h1 h2
      rw [← h1]
      exact htr

lemma keepsOk_statusAttempt (cfg : Config) (env : BrowserEnv)
    (imei requestId : String) :
    keepsOk (statusAttempt cfg env imei requestId) := by
  unfold statusAttempt
  apply keepsOk_bind (keepsOk_gotoE env _); intro _
  apply keepsOk_bind (keepsOk_screenshotE cfg _); intro _
  apply keepsOk_bind (keepsOk_resolveE env statusImeiSelectors); intro s1
  cases s1 with
  | none => exact keepsOk_fail _
  | some isel =>
    apply keepsOk_bind (keepsOk_fillE env isel imei); intro _
    apply keepsOk_bind (keepsOk_resolveE env statusRequestIdSelectors); intro s2
    cases s2 with
    | none => exact keepsOk_fail _
    | some rsel =>
      apply keepsOk_bind (keepsOk_fillE env rsel requestId); intro _
      apply keepsOk_bind (keepsOk_resolveE env statusSubmitSelectors); intro s3
      cases s3 with
      | none => exact keepsOk_fail _
      | some ssel =>
        apply keepsOk_bind (keepsOk_clickE env ssel); intro _
        apply keepsOk_bind (keepsOk_loadStateE env); intro _
        apply keepsOk_bind (keepsOk_screenshotE cfg _); intro _
        exact keepsOk_extractStatusInfoE env

lemma traceOk_closePageE (env : BrowserEnv) (tr : List Event)
    (htr : traceOk tr) : traceOk (closePageE env tr).1 := by
  unfold closePageE
  cases hc : env.closeRes tr with
  | ok u => exact traceOk_append htr (traceOk_single trivial)
  | error e =>
    apply traceOk_append htr
    intro e2 he2
    rcases List.mem_cons.mp he2 with rfl | h2
    · trivial
    · rw [List.mem_singleton.mp h2]; trivial

/-- C10: both flows call the element resolver without a timeout argument, so
    every resolver invocation in any run of either flow carries the
    hard-coded default total budget of 10000 milliseconds (never the
    configured `BROWSER_TIMEOUT`). -/
theorem c10_resolver_always_default_budget (cfg : Config) (env : BrowserEnv)
    (req : InsertUnlockRequest) (now : Nat) (imei requestId : String) :
    (∀ sels t, Event.resolve sels t ∈ (submitUnlockRequest cfg env req now).1 →
      t = 10000) ∧
    (∀ sels t, Event.resolve sels t ∈ (checkStatus cfg env imei requestId).1 →
      t = 10000) := by
  have hsub : traceOk (submitUnlockRequest cfg env req now).1 := by
    unfold submitUnlockRequest
    cases hcp : env.createPageRes with
    | error e => intro e2 he2; simp at he2
    | ok u =>
      rcases hr : submitAttempt cfg env req now [Event.pageCreate] with ⟨tr1, r⟩
      have h1 : traceOk tr1 := by
        have hstart : traceOk [Event.pageCreate] := traceOk_single trivial
        exact keepsOk_submitAttempt cfg env req now _ _ _ hr hstart
      cases r with
      | ok res => exact traceOk_closePageE env tr1 h1
      | error e =>
        apply traceOk_closePageE env
        exact traceOk_append h1 (traceOk_single trivial)
  have hstat : traceOk (checkStatus cfg env imei requestId).1 := by
    unfold checkStatus
    cases hcp : env.createPageRes with
    | error e => intro e2 he2; simp at he2
    | ok u =>
      rcases hr : statusAttempt cfg env imei requestId [Event.pageCreate]
        with ⟨tr1, r⟩
      have h1 : traceOk tr1 := by
        have hstart : traceOk [Event.pageCreate] := traceOk_single trivial
        exact keepsOk_statusAttempt cfg env imei requestId _ _ _ hr hstart
      cases r with
      | ok res => exact traceOk_closePageE env tr1 h1
      | error e => exact traceOk_closePageE env tr1 h1
  exact ⟨fun sels t ht => hsub _ ht, fun sels t ht => hstat _ ht⟩

theorem c10_resolver_always_default_budget_witness :
    Event.resolve pathSelectorsNo 10000 ∈
      (submitUnlockRequest cfg0 noCaptchaEnv req0 0).1 ∧ (10000 : ℚ) = 10000 :=
  ⟨by decide,
   (c10_resolver_always_default_budget cfg0 noCaptchaEnv req0 0
      "353012345678901" "NUL117557332822").1 pathSelectorsNo 10000 (by decide)⟩

/-! ### C7: substring and line-collection lemmas -/

lemma startsWithL_iff (n h : List Char) :
    startsWithL h n = true ↔ ∃ t, h = n ++ t := by
  induction n generalizing h with
  | nil =>
    constructor
    · intro _; exact ⟨h, rfl⟩
    · intro _; cases h <;> rfl
  | cons b bs ih =>
    cases h with
    | nil =>
      simp [startsWithL]
    | cons a as =>
      constructor
      · intro hs
        unfold startsWithL at hs
        rw [Bool.and_eq_true] at hs
        rcases hs with ⟨h1, h2⟩
        rcases (ih as).mp h2 with ⟨t, ht⟩
        exact ⟨t, by rw [ht, List.cons_append, decide_eq_true_iff.mp h1]⟩
      · rintro ⟨t, ht⟩
        rw [List.cons_append] at ht
        injection ht with h1 h2
        unfold startsWithL
        rw [h1, Bool.and_eq_true]
        exact ⟨by simp, (ih as).mpr ⟨t, h2⟩⟩

lemma hasSub_iff (h n : List Char) :
    hasSub h n = true ↔ ∃ s t, h = s ++ n ++ t := by
  induction h with
  | nil =>
    unfold hasSub
    rw [startsWithL_iff]
    constructor
    · rintro ⟨t, ht⟩
      exact ⟨[], t, ht⟩
    · rintro ⟨s, t, ht⟩
      cases s with
      | nil => exact ⟨t, ht⟩
      | cons x xs => simp at ht
  | cons c rest ih =>
    unfold hasSub
    rw [Bool.or_eq_true, startsWithL_iff, ih]
    constructor
    · rintro (⟨t, ht⟩ | ⟨s, t, ht⟩)
      · exact ⟨[], t, by rw [ht]; rfl⟩
      · exact ⟨c :: s, t, by rw [ht]; rfl⟩
    · rintro ⟨s, t, ht⟩
      cases s with
      | nil =>
        left
        exact ⟨t, by simpa using ht⟩
      | cons x xs =>
        right
        rw [List.cons_append, List.cons_append] at ht
        injection ht with h1 h2
        exact ⟨xs, t, h2⟩

lemma hasSub_nil_ne (n : List Char) (hn : n ≠ []) : hasSub [] n = false := by
  unfold hasSub
  cases n with
  | nil => exact absurd rfl hn
  | cons x xs => rfl

lemma ne_nil_of_hasSub {l n : List Char} (hn : n ≠ [])
    (h : hasSub l n = true) : l ≠ [] := by
  intro hl
  rw [hl, hasSub_nil_ne n hn] at h
  exact absurd h (by simp)

lemma hasSub_map {l n : List Char} (f : Char → Char)
    (h : hasSub l n = true) : hasSub (l.map f) (n.map f) = true := by
  rcases (hasSub_iff l n).mp h with ⟨s, t, ht⟩
  exact (hasSub_iff _ _).mpr ⟨s.map f, t.map f, by rw [ht]; simp⟩

lemma hasSub_reverse {l n : List Char}
    (h : hasSub l n = true) : hasSub l.reverse n.reverse = true := by
  rcases (hasSub_iff l n).mp h with ⟨s, t, ht⟩
  exact (hasSub_iff _ _).mpr ⟨t.reverse, s.reverse, by rw [ht]; simp⟩

lemma hasSub_dropWhile {l n : List Char}
    (hws : ∀ c ∈ n, isWS c = false) (hn : n ≠ [])
    (h : hasSub l n = true) : hasSub (l.dropWhile isWS) n = true := by
  induction l with
  | nil => rw [hasSub_nil_ne n hn] at h; exact absurd h (by simp)
  | cons c rest ih =>
    unfold hasSub at h
    rw [Bool.or_eq_true] at h
    rcases h with hst | hrest
    · by_cases hc : isWS c = true
      · rcases (startsWithL_iff n (c :: rest)).mp hst with ⟨t, ht⟩
        cases n with
        | nil => exact absurd rfl hn
        | cons m ms =>
          rw [List.cons_append] at ht
          injection ht with h1 h2
          rw [h1] at hc
          exact absurd hc (by rw [hws m (by simp)]; simp)
      · rw [List.dropWhile_cons, if_neg hc]
        unfold hasSub
        rw [hst]
        rfl
    · by_cases hc : isWS c = true
      · rw [List.dropWhile_cons, if_pos hc]
        exact ih hrest
      · rw [List.dropWhile_cons, if_neg hc]
        unfold hasSub
        rw [hrest]
        simp

lemma hasSub_jsTrim {l n : List Char}
    (hws : ∀ c ∈ n, isWS c = false) (hn : n ≠ [])
    (h : hasSub l n = true) : hasSub (jsTrim l) n = true := by
  unfold jsTrim
  have h1 : hasSub (l.dropWhile isWS) n = true := hasSub_dropWhile hws hn h
  have h2 : hasSub (l.dropWhile isWS).reverse n.reverse = true :=
    hasSub_reverse h1
  have h3 : hasSub ((l.dropWhile isWS).reverse.dropWhile isWS) n.reverse =
      true := by
    apply hasSub_dropWhile _ _ h2
    · intro c hc
      exact hws c (List.mem_reverse.mp hc)
    · intro hrn
      exact hn (List.reverse_eq_nil_iff.mp hrn)
  have h4 := hasSub_reverse h3
  rwa [List.reverse_reverse] at h4

lemma splitLines_ne_nil (l : List Char) : splitLines l ≠ [] := by
  cases l with
  | nil => simp [splitLines]
  | cons c rest =>
    unfold splitLines
    by_cases hc : c = '\n'
    · rw [if_pos hc]; simp
    · rw [if_neg hc]
      cases splitLines rest <;> simp

lemma joinChar_splitLines (l : List Char) :
    joinChar '\n' (splitLines l) = l := by
  induction l with
  | nil => rfl
  | cons c rest ih =>
    unfold splitLines
    by_cases hc : c = '\n'
    · rw [if_pos hc]
      rcases hsp : splitLines rest with _ | ⟨a, r⟩
      · exact absurd hsp (splitLines_ne_nil rest)
      · rw [hsp] at ih
        unfold joinChar
        rw [ih, hc]
        rfl
    · rw [if_neg hc]
      rcases hsp : splitLines rest with _ | ⟨a, r⟩
      · exact absurd hsp (splitLines_ne_nil rest)
      · rw [hsp] at ih
        cases r with
        | nil =>
          unfold joinChar at ih ⊢
          rw [ih]
        | cons b rs =>
          unfold joinChar at ih ⊢
          rw [List.cons_append, ih]

lemma startsWithL_through_sep {n : List Char} (c : Char)
    (hc : c ∉ n) :
    ∀ a z : List Char, startsWithL (a ++ c :: z) n = true →
      startsWithL a n = true := by
  induction n with
  | nil => intro a z _; cases a <;> rfl
  | cons m ms ih =>
    intro a z hs
    cases a with
    | nil =>
      rw [List.nil_append] at hs
      unfold startsWithL at hs
      rw [Bool.and_eq_true] at hs
      rw [decide_eq_true_iff.mp hs.1] at hc
      exact absurd (by simp) hc
    | cons x xs =>
      rw [List.cons_append] at hs
      unfold startsWithL at hs ⊢
      rw [Bool.and_eq_true] at hs ⊢
      exact ⟨hs.1, ih (fun hmem => hc (by simp [hmem])) xs z hs.2⟩

lemma startsWithL_hasSub {l n : List Char} (h : startsWithL l n = true) :
    hasSub l n = true := by
  cases l with
  | nil =>
    unfold hasSub
    exact h
  | cons x xs =>
    unfold hasSub
    rw [h]
    rfl

lemma hasSub_cons_of {l n : List Char} (x : Char) (h : hasSub l n = true) :
    hasSub (x :: l) n = true := by
  unfold hasSub
  rw [h]
  simp

lemma hasSub_append_sep {n : List Char} (c : Char)
    (hc : c ∉ n) (hn : n ≠ []) :
    ∀ a z : List Char, hasSub (a ++ c :: z) n = true →
      hasSub a n = true ∨ hasSub z n = true := by
  intro a
  induction a with
  | nil =>
    intro z h
    rw [List.nil_append] at h
    unfold hasSub at h
    rw [Bool.or_eq_true] at h
    rcases h with hst | hz
    · cases n with
      | nil => exact absurd rfl hn
      | cons m ms =>
        unfold startsWithL at hst
        rw [Bool.and_eq_true] at hst
        rw [decide_eq_true_iff.mp hst.1] at hc
        exact absurd (by simp) hc
    · exact Or.inr hz
  | cons x xs ih =>
    intro z h
    rw [List.cons_append] at h
    unfold hasSub at h
    rw [Bool.or_eq_true] at h
    rcases h with hst | hrest
    · rw [← List.cons_append] at hst
      exact Or.inl (startsWithL_hasSub
        (startsWithL_through_sep c hc (x :: xs) z hst))
    · rcases ih z hrest with h1 | h1
      · exact Or.inl (hasSub_cons_of x h1)
      · exact Or.inr h1

lemma hasSub_joinChar {n : List Char} (c : Char)
    (hc : c ∉ n) (hn : n ≠ []) :
    ∀ segs : List (List Char), hasSub (joinChar c segs) n = true →
      ∃ seg ∈ segs, hasSub seg n = true := by
  intro segs
  induction segs with
  | nil =>
    intro h
    rw [show joinChar c [] = [] from rfl, hasSub_nil_ne n hn] at h
    exact absurd h (by simp)
  | cons a rest ih =>
    intro h
    cases rest with
    | nil => exact ⟨a, by simp, h⟩
    | cons b rs =>
      rw [show joinChar c (a :: b :: rs) = a ++ c :: joinChar c (b :: rs)
            from rfl] at h
      rcases hasSub_append_sep c hc hn a _ h with h1 | h1
      · exact ⟨a, by simp, h1⟩
      · rcases ih h1 with ⟨seg, hseg, hs⟩
        exact ⟨seg, by simp [List.mem_cons.mp hseg], hs⟩

lemma dropWhile_head {p : Char → Bool} {l : List Char} {x : Char}
    {xs : List Char} (h : l.dropWhile p = x :: xs) : p x = false := by
  induction l with
  | nil => simp [List.dropWhile] at h
  | cons c rest ih =>
    rw [List.dropWhile_cons] at h
    by_cases hc : p c = true
    · rw [if_pos hc] at h
      exact ih h
    · rw [if_neg hc] at h
      injection h with h1 h2
      rw [← h1]
      exact Bool.not_eq_true _ ▸ hc

lemma dropWhile_eq_drop (p : Char → Bool) (l : List Char) :
    ∃ k, l.dropWhile p = l.drop k := by
  induction l with
  | nil => exact ⟨0, rfl⟩
  | cons c rest ih =>
    rw [List.dropWhile_cons]
    by_cases hc : p c = true
    · rcases ih with ⟨k, hk⟩
      exact ⟨k + 1, by rw [if_pos hc, hk]; rfl⟩
    · exact ⟨0, by rw [if_neg hc, List.drop_zero]⟩

lemma jsTrim_eq_take (l : List Char) :
    ∃ j, jsTrim l = (l.dropWhile isWS).take j := by
  unfold jsTrim
  rcases dropWhile_eq_drop isWS (l.dropWhile isWS).reverse with ⟨k, hk⟩
  refine ⟨(l.dropWhile isWS).reverse.length - k, ?_⟩
  rw [hk, List.reverse_drop, List.reverse_reverse]

lemma take_head {m : List Char} {j : Nat} {x : Char} {xs : List Char}
    (h : m.take j = x :: xs) : ∃ ms, m = x :: ms := by
  cases j with
  | zero => simp at h
  | succ j2 =>
    cases m with
    | nil => simp at h
    | cons y ys =>
      rw [List.take_succ_cons] at h
      injection h with h1 h2
      exact ⟨ys, by rw [h1]⟩

/-- The head of a non-empty trimmed list is not whitespace. -/
lemma jsTrim_head {l : List Char} {x : Char} {xs : List Char}
    (h : jsTrim l = x :: xs) : isWS x = false := by
  rcases jsTrim_eq_take l with ⟨j, hj⟩
  rw [hj] at h
  rcases take_head h with ⟨ms, hms⟩
  exact dropWhile_head hms

/-- Trimming a list whose head is not whitespace yields a non-empty list. -/
lemma jsTrim_cons_ne_nil {x : Char} {l : List Char} (hx : isWS x = false) :
    jsTrim (x :: l) ≠ [] := by
  unfold jsTrim
  have h1 : (x :: l).dropWhile isWS = x :: l := by
    rw [List.dropWhile_cons, if_neg (by rw [hx]; simp)]
  rw [h1]
  intro h
  rw [List.reverse_eq_nil_iff, List.dropWhile_eq_nil_iff] at h
  have := h x (by simp)
  rw [hx] at this
  exact absurd this (by simp)

lemma jsTrim_length_le (l : List Char) : (jsTrim l).length ≤ l.length := by
  rcases jsTrim_eq_take l with ⟨j, hj⟩
  rw [hj]
  calc ((l.dropWhile isWS).take j).length
      ≤ (l.dropWhile isWS).length := by rw [List.length_take]; omega
    _ ≤ l.length := by
        rcases dropWhile_eq_drop isWS l with ⟨k, hk⟩
        rw [hk, List.length_drop]
        omega

/-! Fold invariants for the relevant-line collection. -/

lemma foldl_pres {β : Type} {P : List (List Char) → Prop}
    {f : List (List Char) → β → List (List Char)}
    (hf : ∀ acc x, P acc → P (f acc x)) :
    ∀ (l : List β) (acc : List (List Char)), P acc → P (l.foldl f acc) := by
  intro l
  induction l with
  | nil => intro acc h; exact h
  | cons x xs ih =>
    intro acc h
    exact ih (f acc x) (hf acc x h)

lemma foldl_establish {β : Type} [DecidableEq β] {P : List (List Char) → Prop}
    {f : List (List Char) → β → List (List Char)} {i : β}
    (hf : ∀ acc x, P acc → P (f acc x))
    (hi : ∀ acc, P (f acc i)) :
    ∀ (l : List β) (acc : List (List Char)), i ∈ l → P (l.foldl f acc) := by
  intro l
  induction l with
  | nil => intro acc h; simp at h
  | cons x xs ih =>
    intro acc h
    rcases List.mem_cons.mp h with rfl | h2
    · exact foldl_pres hf xs (f acc i) (hi acc)
    · exact ih (f acc x) h2

lemma pushUnique_pres_ne_nil {acc : List (List Char)} {v : List Char}
    (h : acc ≠ []) : pushUnique acc v ≠ [] := by
  unfold pushUnique
  split
  · simp
  · exact h

lemma pushUnique_establish_ne_nil {v : List Char} (hv : v ≠ []) :
    ∀ acc, pushUnique acc v ≠ [] := by
  intro acc
  unfold pushUnique
  split
  · simp
  · rename_i hcond
    rw [not_and_or] at hcond
    rcases hcond with h1 | h2
    · exact absurd hv (by simpa using h1)
    · exact List.ne_nil_of_mem (by simpa using h2)

lemma pushUnique_pres_mem {lines acc : List (List Char)} {v : List Char}
    (hmem : ∀ x ∈ acc, x ∈ lines) (hv : v ≠ [] → v ∈ lines) :
    ∀ x ∈ pushUnique acc v, x ∈ lines := by
  intro x hx
  unfold pushUnique at hx
  split at hx
  · rename_i hcond
    rcases List.mem_append.mp hx with h1 | h1
    · exact hmem x h1
    · rw [List.mem_singleton.mp h1]
      exact hv hcond.1
  · exact hmem x hx

lemma getD_mem_of_ne_nil {lines : List (List Char)} {j : Nat}
    (h : lines.getD j [] ≠ []) : lines.getD j [] ∈ lines := by
  by_cases hj : j < lines.length
  · rw [List.getD_eq_get lines [] hj]
    exact List.get_mem lines j hj
  · rw [List.getD_eq_default lines [] (by omega)] at h
    exact absurd rfl h

lemma collectFrom_ne_nil {lines : List (List Char)} {i : Nat}
    (hi : i < lines.length) (hne : lines.getD i [] ≠ []) :
    ∀ acc, collectFrom lines i acc ≠ [] := by
  intro acc
  unfold collectFrom
  apply foldl_establish (P := fun acc => acc ≠ []) (i := i)
  · intro a j h
    exact pushUnique_pres_ne_nil h
  · intro a
    exact pushUnique_establish_ne_nil hne a
  · rw [List.mem_range'_1]
    omega

lemma collectFrom_pres_ne_nil {lines : List (List Char)} {i : Nat}
    {acc : List (List Char)} (h : acc ≠ []) : collectFrom lines i acc ≠ [] := by
  unfold collectFrom
  apply foldl_pres (P := fun acc => acc ≠ []) _ _ _ h
  intro a j hj
  exact pushUnique_pres_ne_nil hj

lemma collectFrom_pres_mem {lines : List (List Char)} {i : Nat}
    {acc : List (List Char)} (h : ∀ x ∈ acc, x ∈ lines) :
    ∀ x ∈ collectFrom lines i acc, x ∈ lines := by
  unfold collectFrom
  apply foldl_pres (P := fun acc => ∀ x ∈ acc, x ∈ lines) _ _ _ h
  intro a j hj
  exact pushUnique_pres_mem hj (fun hne => getD_mem_of_ne_nil hne)

lemma relevantLinesOf_ne_nil {lines : List (List Char)} {status : String}
    {i : Nat} (hi : i < lines.length)
    (hmatch : lineMatches status (lines.getD i []) = true)
    (hne : lines.getD i [] ≠ []) :
    relevantLinesOf lines status ≠ [] := by
  unfold relevantLinesOf
  apply foldl_establish (P := fun acc => acc ≠ []) (i := i)
  · intro acc j h
    by_cases hj : lineMatches status (lines.getD j []) = true
    · rw [if_pos hj]
      exact collectFrom_pres_ne_nil h
    · rw [if_neg hj]
      exact h
  · intro acc
    rw [if_pos hmatch]
    exact collectFrom_ne_nil hi hne acc
  · rw [List.mem_range]
    exact hi

lemma relevantLinesOf_mem {lines : List (List Char)} {status : String} :
    ∀ x ∈ relevantLinesOf lines status, x ∈ lines := by
  unfold relevantLinesOf
  apply foldl_pres (P := fun acc => ∀ x ∈ acc, x ∈ lines)
  · intro acc j h
    by_cases hj : lineMatches status (lines.getD j []) = true
    · rw [if_pos hj]
      exact collectFrom_pres_mem h
    · rw [if_neg hj]
      exact h
  · intro x hx
    simp at hx

/-- A substring of the lowercased list comes from a substring of the original
    list whose lowercasing is the given needle. -/
lemma lower_decomp {l m : List Char} (h : hasSub (lowerL l) m = true) :
    ∃ u, u.map Char.toLower = m ∧ hasSub l u = true := by
  rcases (hasSub_iff _ _).mp h with ⟨s, t, ht⟩
  refine ⟨(l.drop s.length).take m.length, ?_, ?_⟩
  · rw [List.map_take, List.map_drop]
    unfold lowerL at ht
    rw [ht, List.append_assoc, List.drop_left, List.take_left]
  · apply (hasSub_iff _ _).mpr
    refine ⟨l.take s.length, (l.drop s.length).drop m.length, ?_⟩
    calc l = l.take s.length ++ l.drop s.length :=
          (List.take_append_drop _ _).symm
      _ = l.take s.length ++ ((l.drop s.length).take m.length ++
            (l.drop s.length).drop m.length) := by
          rw [List.take_append_drop m.length (l.drop s.length)]
      _ = l.take s.length ++ (l.drop s.length).take m.length ++
            (l.drop s.length).drop m.length := by
          rw [List.append_assoc]

lemma isWS_elim {c : Char} (h : isWS c = true) :
    c = ' ' ∨ c = '\t' ∨ c = '\r' ∨ c = '\n' := by
  unfold isWS at h
  simp only [Bool.or_eq_true, decide_eq_true_iff] at h
  tauto

/-- C7 (amended): on a status page containing the word `pending` and no
    approved or denied keyword, the classifier returns status `pending`
    together with a non-empty details string of at most 500 characters, and
    that string is the spec-worded construction (`claimedDetails`) with
    leading and trailing whitespace additionally trimmed. -/
theorem c7_pending_details_bounded (text : String)
    (hpend : hasSub (lowerL text.toList) "pending".toList = true)
    (happ : matchesAny (lowerL text.toList) approvedPatterns = false)
    (hden : matchesAny (lowerL text.toList) deniedPatterns = false) :
    extractStatusInfoText text =
      Except.ok ⟨true, RequestStatus.PENDING,
        some (extractStatusDetails text RequestStatus.PENDING), none⟩ ∧
    extractStatusDetails text RequestStatus.PENDING ≠ "" ∧
    (extractStatusDetails text RequestStatus.PENDING).length ≤ 500 ∧
    extractStatusDetails text RequestStatus.PENDING =
      ⟨jsTrim (claimedDetails text RequestStatus.PENDING).toList⟩ := by
  have hpl : matchesAny (lowerL text.toList) pendingPatterns = true := by
    unfold matchesAny
    apply List.any_eq_true.mpr
    exact ⟨"pending", by simp [pendingPatterns], hpend⟩
  have hclass : extractStatusInfoText text =
      Except.ok ⟨true, RequestStatus.PENDING,
        some (extractStatusDetails text RequestStatus.PENDING), none⟩ := by
    simp only [String.toList] at happ hden hpl
    simp [extractStatusInfoText, statusGroups, List.find?_cons, String.toList,
      happ, hden, hpl]
  -- Decompose the occurrence of "pending" into a pre-image substring `u`.
  obtain ⟨u, hu_map, hu_sub⟩ := lower_decomp hpend
  have hu_ne : u ≠ [] := by
    intro h
    rw [h] at hu_map
    exact (by decide : ¬(([] : List Char).map Char.toLower = "pending".toList))
      hu_map
  have hu_ws : ∀ c ∈ u, isWS c = false := by
    intro c hc
    cases hcc : isWS c with
    | false => rfl
    | true =>
      have hmem : Char.toLower c ∈ "pending".toList := by
        rw [← hu_map]
        exact List.mem_map_of_mem _ hc
      rcases isWS_elim hcc with rfl | rfl | rfl | rfl <;>
        exact absurd hmem (by decide)
  have hu_nl : '\n' ∉ u := by
    intro hnl
    have hmem : Char.toLower '\n' ∈ "pending".toList := by
      rw [← hu_map]
      exact List.mem_map_of_mem _ hnl
    exact absurd hmem (by decide)
  -- The occurrence lies inside one line of the split text.
  have hsub_join : hasSub (joinChar '\n' (splitLines text.toList)) u = true := by
    rw [joinChar_splitLines]
    exact hu_sub
  obtain ⟨seg, hseg_mem, hseg_sub⟩ :=
    hasSub_joinChar '\n' hu_nl hu_ne _ hsub_join
  have htrim_sub : hasSub (jsTrim seg) u = true :=
    hasSub_jsTrim hu_ws hu_ne hseg_sub
  have hline_ne : jsTrim seg ≠ [] := ne_nil_of_hasSub hu_ne htrim_sub
  have hline_mem : jsTrim seg ∈ statusLines text := by
    unfold statusLines
    rw [List.mem_filter]
    exact ⟨List.mem_map_of_mem _ hseg_mem, by simpa using hline_ne⟩
  obtain ⟨⟨i, hi⟩, hget⟩ := List.mem_iff_get.mp hline_mem
  have hgetD : (statusLines text).getD i [] = jsTrim seg := by
    rw [List.getD_eq_get _ _ hi]
    exact hget
  have hlow : hasSub (lowerL (jsTrim seg)) ("pending".toList) = true := by
    have h1 := hasSub_map Char.toLower htrim_sub
    rw [hu_map] at h1
    exact h1
  have hlm : lineMatches RequestStatus.PENDING
      ((statusLines text).getD i []) = true := by
    rw [hgetD]
    unfold lineMatches
    rw [show lowerL (RequestStatus.PENDING.toList) = "pending".toList
          from by decide, hlow]
    simp
  have hrel : relevantLinesOf (statusLines text) RequestStatus.PENDING ≠ [] :=
    relevantLinesOf_ne_nil hi hlm (by rw [hgetD]; exact hline_ne)
  rcases hr : relevantLinesOf (statusLines text) RequestStatus.PENDING
    with _ | ⟨r0, rel2⟩
  · exact absurd hr hrel
  have hr0_mem : r0 ∈ statusLines text := by
    apply @relevantLinesOf_mem (statusLines text) RequestStatus.PENDING r0
    rw [hr]
    simp
  have hr0_ne : r0 ≠ [] := by
    unfold statusLines at hr0_mem
    rw [List.mem_filter] at hr0_mem
    simpa using hr0_mem.2
  obtain ⟨seg0, hseg0_mem, hseg0_eq⟩ :
      ∃ s0 ∈ splitLines text.toList, jsTrim s0 = r0 := by
    unfold statusLines at hr0_mem
    rw [List.mem_filter] at hr0_mem
    rcases List.mem_map.mp hr0_mem.1 with ⟨s0, hs0, hs0eq⟩
    exact ⟨s0, hs0, hs0eq⟩
  rcases hr0l : r0 with _ | ⟨x, xs⟩
  · exact absurd hr0l hr0_ne
  subst hr0l
  have hx : isWS x = false := by
    apply jsTrim_head (l := seg0)
    rw [hseg0_eq]
  obtain ⟨z, hz⟩ : ∃ z, joinChar ' ' (((x :: xs) :: rel2).take 5) =
      (x :: xs) ++ z := by
    rw [show ((x :: xs) :: rel2).take 5 = (x :: xs) :: rel2.take 4 from rfl]
    cases h4 : rel2.take 4 with
    | nil => exact ⟨[], by simp [joinChar]⟩
    | cons b bs => exact ⟨' ' :: joinChar ' ' (b :: bs), rfl⟩
  have hCdata : (claimedDetails text RequestStatus.PENDING).toList =
      x :: ((xs ++ z).take 499) := by
    show (joinChar ' '
        ((relevantLinesOf (statusLines text) RequestStatus.PENDING).take 5)).take 500
      = x :: ((xs ++ z).take 499)
    rw [hr, hz, List.cons_append]
    rfl
  have hdetails_eq : extractStatusDetails text RequestStatus.PENDING =
      ⟨jsTrim ((claimedDetails text RequestStatus.PENDING).toList)⟩ := rfl
  refine ⟨hclass, ?_, ?_, hdetails_eq⟩
  · rw [hdetails_eq, hCdata]
    intro hcontra
    rw [String.ext_iff] at hcontra
    exact jsTrim_cons_ne_nil hx hcontra
  · rw [hdetails_eq]
    show (jsTrim ((claimedDetails text RequestStatus.PENDING).toList)).length ≤ 500
    calc (jsTrim ((claimedDetails text RequestStatus.PENDING).toList)).length
        ≤ ((claimedDetails text RequestStatus.PENDING).toList).length :=
          jsTrim_length_le _
      _ ≤ 500 := by
          rw [hCdata]
          rw [List.length_cons, List.length_take]
          omega

set_option maxRecDepth 8000 in
/-- C7 counterexample: on `cexText` the classifier returns status `pending`,
    but the details string is not the claimed construction (truncation to 500
    characters): the source trims the truncated string, dropping its trailing
    space. -/
theorem c7_details_truncation_counterexample :
    extractStatusInfoText cexText =
      Except.ok ⟨true, RequestStatus.PENDING,
        some (extractStatusDetails cexText RequestStatus.PENDING), none⟩ ∧
    extractStatusDetails cexText RequestStatus.PENDING ≠
      claimedDetails cexText RequestStatus.PENDING ∧
    (claimedDetails cexText RequestStatus.PENDING).length = 500 ∧
    (extractStatusDetails cexText RequestStatus.PENDING).length = 499 := by
  refine ⟨rfl, by decide, by decide, by decide⟩

set_option maxRecDepth 2000 in
theorem c7_pending_details_bounded_witness :
    extractStatusInfoText "Your request is pending" =
      Except.ok ⟨true, RequestStatus.PENDING,
        some (extractStatusDetails "Your request is pending"
                RequestStatus.PENDING), none⟩ :=
  (c7_pending_details_bounded "Your request is pending"
    (by decide) (by decide) (by decide)).1

end ATTUnlock
